import Mathlib

/-!
Verification of the report-generation pipeline of the `vibe-scraping`
repository (files `src/reports.js`, `src/analyze.js`, and the scraper
`index.js` containing `analyzeArticleAndComments` / `generateNewsletter`).

Text is modelled as `List Char` (`JStr`).  The JavaScript string methods the
code relies on are reimplemented with the same semantics:

* `s.replace(pat, rep)` with a *string* pattern replaces only the first
  occurrence, applying GetSubstitution to the replacement (`jsReplaceFirst`);
* `s.replace(/pat/g, rep)` with a global regex over a literal pattern
  replaces every left-to-right non-overlapping occurrence, applying
  GetSubstitution to the replacement at each match (`jsReplaceAll`);
* `s.trim()` strips whitespace from both ends (`jsTrim`);
* `name.toLowerCase()` followed by the global whitespace regex replace
  collapses each maximal whitespace run into one underscore after
  lower-casing (`normTypeName`);
* `path.basename` takes the last path segment (`jsBasename`).

The filesystem that the pipeline uses as its hand-off store is modelled as an
association list from subreddit name to a `GroupDir` (its `post_*`
directories and the optional `subreddit_analysis.md` file).  Model calls go
through an oracle of type `JStr → Except JStr JStr` (`Except.error` models a
rejected promise / thrown network error).
-/

/-- JavaScript strings, modelled as lists of characters. -/
abbrev JStr := List Char

/-- Embed a Lean string literal as a `JStr`. -/
def str (s : String) : JStr := s.data

/-- Decimal rendering of a natural number, as JavaScript renders a
`number` interpolated into a template literal. -/
def natStr (n : Nat) : JStr := Nat.toDigits 10 n

/-- Split a string around the first occurrence of `pat`:
`splitFirst pat s = some (pre, suf)` with `s = pre ++ pat ++ suf` and `pre`
shortest possible, or `none` when `pat` does not occur in `s`. -/
def splitFirst (pat : JStr) : JStr → Option (JStr × JStr)
  | [] => if pat = [] then some ([], []) else none
  | c :: cs =>
    if pat.isPrefixOf (c :: cs) then
      some ([], (c :: cs).drop pat.length)
    else
      match splitFirst pat cs with
      | some (pre, suf) => some (c :: pre, suf)
      | none => none

/-- Tail-recursive form of `splitFirst`: `acc` holds the reversed prefix
scanned so far, so long scans run in constant stack per character.  Proved
equal to `splitFirst` in `splitFirstTR_nil`; the global replace below uses
this form so that concrete prompts of template length can be evaluated. -/
def splitFirstTR (pat : JStr) : JStr → JStr → Option (JStr × JStr)
  | acc, s =>
    if pat.isPrefixOf s then some (acc.reverse, s.drop pat.length)
    else
      match s with
      | [] => none
      | c :: cs => splitFirstTR pat (c :: acc) cs

/-- The backquote character, written by code point to keep it out of the
source text. -/
def backquoteChar : Char := Char.ofNat 96

/-- The apostrophe character, written by code point to keep it out of the
source text. -/
def aposChar : Char := Char.ofNat 39

/-- GetSubstitution of ECMA-262 for a replacement string, specialised to the
patterns this repository uses (literal string patterns and capture-free
literal regexes, so zero capture groups): dollar-dollar yields a dollar,
dollar-ampersand yields the matched text (the pattern itself),
dollar-backquote yields the portion of the subject before the match,
dollar-apostrophe yields the portion after the match; every other
dollar-sequence (including dollar-digit, which with zero capture groups is
left untouched) stays literal. -/
def getSubstitution (pat pre suf : JStr) : JStr → JStr
  | [] => []
  | c :: rest =>
    if c = '$' then
      match rest with
      | [] => [c]
      | d :: rest2 =>
        if d = '$' then '$' :: getSubstitution pat pre suf rest2
        else if d = '&' then pat ++ getSubstitution pat pre suf rest2
        else if d = backquoteChar then pre ++ getSubstitution pat pre suf rest2
        else if d = aposChar then suf ++ getSubstitution pat pre suf rest2
        else c :: getSubstitution pat pre suf (d :: rest2)
    else c :: getSubstitution pat pre suf rest

/-- JavaScript `s.replace(pat, rep)` with a plain-string pattern: replace
only the first occurrence of `pat`, applying GetSubstitution to `rep` with
the text before and after the match. -/
def jsReplaceFirst (s pat rep : JStr) : JStr :=
  match splitFirst pat s with
  | some (pre, suf) => pre ++ getSubstitution pat pre suf rep ++ suf
  | none => s

/-- Fuel-driven worker for `jsReplaceAll`; `consumed` is the already
processed part of the original subject (GetSubstitution refers to the
original text around each match), and the fuel bounds the number of replaced
occurrences, so `s.length` fuel always suffices for a nonempty pattern. -/
def jsReplaceAllAux (pat rep : JStr) : Nat → JStr → JStr → JStr
  | 0, _, s => s
  | fuel + 1, consumed, s =>
    match splitFirstTR pat [] s with
    | some (pre, suf) =>
      pre ++ getSubstitution pat (consumed ++ pre) suf rep ++
        jsReplaceAllAux pat rep fuel (consumed ++ pre ++ pat) suf
    | none => s

/-- Tail-recursive length, used as the fuel of `jsReplaceAll` so that fuel
evaluation runs in constant stack per character; equal to `List.length`
plus the accumulator (`lenTR_eq`). -/
def lenTR : JStr → Nat → Nat
  | [], n => n
  | _ :: cs, n => lenTR cs (n + 1)

/-- JavaScript `s.replace(/pat/g, rep)` over a capture-free literal pattern:
replace all left-to-right non-overlapping occurrences, each via
GetSubstitution.  (The code never uses an empty pattern; we return `s`
unchanged in that degenerate case.) -/
def jsReplaceAll (s pat rep : JStr) : JStr :=
  if pat = [] then s else jsReplaceAllAux pat rep (lenTR s 0) [] s

/-- JavaScript whitespace test for the characters that actually occur in the
repository data (`\s` of the regexes used). -/
def jsWs (c : Char) : Bool := c.isWhitespace

/-- JavaScript `s.trim()`. -/
def jsTrim (s : JStr) : JStr :=
  ((s.dropWhile jsWs).reverse.dropWhile jsWs).reverse

/-- Worker for `collapseWs`: `insideRun` records whether the previous
character was whitespace (in which case further whitespace is absorbed into
the same `_`). -/
def collapseWsAux (insideRun : Bool) : JStr → JStr
  | [] => []
  | c :: cs =>
    if jsWs c then
      if insideRun then collapseWsAux true cs
      else '_' :: collapseWsAux true cs
    else
      c :: collapseWsAux false cs

/-- The JavaScript global whitespace-regex replace to underscore: each
maximal whitespace run becomes a single underscore. -/
def collapseWs (s : JStr) : JStr := collapseWsAux false s

/-- Lower-casing plus whitespace-run collapsing of a config name — the
report-type slug used in output filenames (analyze.js line 223, index.js line 2016). -/
def normTypeName (s : JStr) : JStr := collapseWs (s.map Char.toLower)

/-- Model of `path.basename` for `/`-separated paths (trailing separators ignored),
used to derive the run id from the run directory (analyze.js line 216). -/
def jsBasename (s : JStr) : JStr :=
  ((s.reverse.dropWhile (· = '/')).takeWhile (· ≠ '/')).reverse

/-- JavaScript `x || dflt` for an optional string whose present values are
truthy (all labels the pipeline uses are nonempty). -/
def jsOrDefault (x : Option JStr) (dflt : JStr) : JStr := x.getD dflt

/-- Substring test (JavaScript `s.includes(pat)`); also the executable form
of `pat <:+: s` used to evaluate infix facts on the long template strings. -/
def containsSub (pat : JStr) : JStr → Bool
  | [] => pat = []
  | c :: cs => pat.isPrefixOf (c :: cs) || containsSub pat cs

/-- Boolean equality of strings by a linear scan that recurses in tail
position, so witnesses can evaluate equalities between template-length
strings. -/
def eqJ : JStr → JStr → Bool
  | [], [] => true
  | a :: as, b :: bs => a == b && eqJ as bs
  | _, _ => false

/-! ## The report template registry (`src/reports.js`)

`ReportConfig` mirrors the configuration objects of `reports.js`: a name, a
description and the five prompt templates.  The extra field
`exclusionSentinel` records the literal sentinel value that the per-config
`newsletterItemPrompt` designates for "exclude this item" (the "quality
gate" of the glossary of the spec); in the source this literal only appears
inside the prompt text ("respond with ..."), so the field makes the
designation explicit.  `sentinel_mentioned_in_item_prompt` below checks the
field against the prompt text. -/

structure ReportConfig where
  name : JStr
  description : JStr
  newsletterIntro : JStr
  subredditAnalysisPrompt : JStr
  combinedNewsletterPrompt : JStr
  newsletterItemPrompt : JStr
  combinedNewsletterFooter : JStr
  exclusionSentinel : JStr
  deriving DecidableEq

/-- The `newsletter` report type of `reports.js` (lines 18-171), verbatim. -/
def newsletterConfig : ReportConfig where
  name := str "Newsletter"
  description := str "A general newsletter with insights on the latest content"
  newsletterIntro := str "# tl;dr {subreddit}\n\nHey {recipient_name},\n\nYour personalized Reddit digest for r/{subreddit} is ready. Here are today\x27s notable topics from {date} that align with your interests:\n\n"
  subredditAnalysisPrompt := str "\n  Create a comprehensive analysis of the subreddit r/{subreddit} based on the posts provided.\n\n  Analyze these {postCount} posts collectively to identify:\n  1. Major themes and topics across posts\n  2. Notable trends and patterns in the content\n  3. Community sentiment and points of controversy\n  4. Significant insights or interesting discoveries\n\n  Format as a well-structured briefing with:\n  - A descriptive title for the subreddit analysis\n  - An executive summary at the top (2-3 sentences)\n  - Sections with clear headings for each major theme\n  - Short, information-dense paragraphs\n  - Occasional personal insights marked with 💡\n  - Actionable takeaways when relevant\n\n  Focus on FILTERING and PRIORITIZING valuable content:\n\n  1. HIGHLIGHT the most important, informative, and newsworthy posts\n     - Breaking news and major developments\n     - Significant releases or updates\n     - Important technical information\n     - Expert analysis and high-quality insights\n     - Notable trends with real impact\n\n  2. IGNORE entirely:\n     - Shitposts, memes and jokes\n     - Common knowledge/redundant information\n     - Low-effort questions and discussions\n     - Personal anecdotes without broader relevance\n     - Trivial updates with minimal impact\n\n  Write with the voice of a highly knowledgeable and insightful analyst who has an extraordinary ability to synthesize information efficiently. Maintain a professional, authoritative tone with occasional flashes of understated wit. The goal is to come across as a uniquely perceptive human editor with uncanny insight.\n\n  IMPORTANT: Include specific quotes, statistics, usernames, trends and concrete examples from the analyzed posts. Reference actual content rather than making general observations. Your analysis should be so specific that it could only apply to this particular set of r/{subreddit} posts.\n\n  ALWAYS include direct links to the original posts using markdown format [Title](URL). For each significant post you mention, add its link so readers can visit the original sources. The post URLs are included with each post analysis below.\n\n  Remember, the goal is QUALITY over QUANTITY - it\x27s better to deeply analyze a few valuable posts than to superficially cover many low-value ones.\n\n  Here are the post analyses to synthesize:\n  {postAnalyses}\n"
  combinedNewsletterPrompt := str "\n  Create a newsletter that summarizes key topics from these Reddit analyses, but organize by TOPIC CATEGORY rather than by subreddit.\n\n  Group content into 4-6 clear thematic categories such as:\n  - Technology & Software\n  - Security & Privacy\n  - Business & Industry News\n  - Research & Science\n  - Politics & Policy\n  - Culture & Society\n  - Tools & Resources\n  (Choose categories that best fit the actual content you see)\n\n  For each topic category:\n  1. Create a concise, catchy category title prefixed with \"##\"\n  2. Add 2-4 summarized items from ANY subreddit that fits this category\n  3. Each item should have:\n     - A clear headline in bold\n     - A brief 1-3 sentence summary\n     - An appropriate emoji at the start\n     - Occasional personal insights marked with 💡\n  4. Focus on interesting, informative takeaways\n\n  DO NOT organize by subreddit or mention which subreddit content came from (though keep the original links intact).\n\n  Focus ONLY on the most valuable, informative content. Prioritize:\n  - Breaking news and recent developments\n  - Significant releases, updates, and discoveries\n  - Important security vulnerabilities, tools, and techniques\n  - Expert insights and high-quality analysis\n  - Industry trends with meaningful impact\n\n  COMPLETELY IGNORE low-value content like:\n  - Shitposts, memes, and joke threads\n  - Redundant information already widely known\n  - Trivial updates without substantial impact\n  - Personal anecdotes without broader relevance\n  - Generic questions or repetitive discussions\n\n  Write in a knowing, informed tone with subtlety and wit. Include exactly one subtle joke or wry observation about the content (NOT about processing speed, efficiency, or data analysis capabilities). The goal is to sound like a highly knowledgeable human editor with a dry sense of humor and exceptional subject matter expertise.\n\n  IMPORTANT: You MUST include specific insights, details and examples from the provided analyses - not generic summaries. Use actual names, numbers, and quotes when available. The newsletter should feel like a premium filter that only presents genuinely valuable information.\n\n  CRITICAL: For each item you include, add a direct link to the original Reddit post using the format [Title](URL). The post URLs are included in each subreddit analysis you receive. This allows readers to visit the original sources for more information.\n\n  Here are the subreddit analyses to summarize:\n  {subredditAnalyses}\n"
  newsletterItemPrompt := str "\n  I need a high-quality newsletter summary for this Reddit content analysis.\n\n  First, evaluate if this content is truly worth including:\n\n  INCLUDE content that is:\n  - Breaking news or major developments\n  - Significant releases or technical updates\n  - Expert analyses with valuable insights\n  - Important security or industry information\n  - Novel ideas or concepts of substantial interest\n\n  EXCLUDE entirely any content that is:\n  - Memes, jokes, or shitposts\n  - Common knowledge or redundant information\n  - Low-effort questions or discussions\n  - Personal anecdotes without broader relevance\n  - Trivial updates with minimal impact\n\n  If the content meets the quality threshold, write a concise headline + 2-4 sentence summary.\n  Include a single emoji at the start that represents the content.\n  Start with a ## heading with a catchy title.\n\n  IMPORTANT: Always include a direct link to the original Reddit post in your summary using the markdown format [Title]({postLink})\n\n  The link format should be:\n  - Title should be a very short (2-5 words) version of the headline\n  - The link itself should be the original post URL: {postLink}\n  - Place this link either at the beginning or end of your summary\n\n  If the content does NOT meet the quality threshold, respond with \"LOW_VALUE_CONTENT\" and I\x27ll skip this post.\n\n  Write as if you\x27re a highly perceptive human editor with extraordinary analytical abilities and a subtle, dry sense of humor. The tone should be knowledgeable, authoritative, and slightly witty. Avoid any references to efficiency, processing speed, or data analysis capabilities in your humor.\n\n  Here\x27s the analysis:\n  {analysisText}\n"
  combinedNewsletterFooter := str "\n---\n\nThat\x27s all for today\x27s digest. Your next update will arrive at the same time tomorrow.\n\nStay informed,\nThe Reddit Insight Team\n"
  exclusionSentinel := str "LOW_VALUE_CONTENT"

/-- The `academic` report type of `reports.js` (lines 175-350), verbatim. -/
def academicConfig : ReportConfig where
  name := str "Literature Review"
  description := str "A scholarly analysis for academic research and literature review"
  newsletterIntro := str "# Literature Review: r/{subreddit}\n\nDear {recipient_name},\n\nYour academic literature review from r/{subreddit} as of {date} is now available. This analysis follows a systematic review approach to synthesize content for academic research purposes:\n\n"
  subredditAnalysisPrompt := str "\n  Conduct a formal literature review of content from the subreddit r/{subreddit} following academic research standards.\n\n  Apply systematic literature review methodology to analyze these {postCount} posts, focusing on:\n  1. State of current knowledge and key research questions\n  2. Predominant theoretical frameworks and conceptual models\n  3. Methodological approaches, data collection, and analysis techniques\n  4. Empirical findings, evidential support, and interpretation\n  5. Research gaps, contradictions, and potential directions for future research\n  6. Practical implications for researchers, practitioners, and policymakers\n\n  Structure your literature review following standard academic format:\n  - Abstract: A concise summary of the review findings (150-200 words)\n  - Introduction: Purpose and scope of the review, research questions addressed\n  - Methodology: Approach to identifying, categorizing, and analyzing the literature\n  - Results: Systematic presentation of findings organized by theoretical constructs\n  - Discussion: Synthesis of key themes, contradictions, and limitations\n  - Conclusion: Implications for research and practice, future research agenda\n\n  Apply strict academic selection criteria:\n  1. INCLUDE only academically-relevant content:\n     - Primary research with clearly defined methodology\n     - Theoretical contributions with conceptual rigor\n     - Evidence-supported findings and interpretations\n     - Systematic analyses with research implications\n     - Critical evaluations of existing literature\n\n  2. EXCLUDE non-scholarly content:\n     - Anecdotal reports without methodological foundations\n     - Unsubstantiated claims lacking evidential support\n     - Popular opinions without theoretical grounding\n     - Commercial content without research value\n     - Simplified summaries without analytical depth\n\n  Write in the formal academic style of a published literature review in a peer-reviewed journal. Employ precise terminology, maintain objectivity, and structure arguments logically. Identify limitations in both your methodology and the content analyzed.\n\n  IMPORTANT: Use proper academic citation format [Author, Year](URL) throughout. Include direct quotations where appropriate with clear attribution. Maintain a critical scholarly distance while analyzing content.\n\n  ESSENTIAL: Position your analysis within the broader academic discourse. Identify how this content contributes to existing scholarly debates, theoretical development, and methodological innovation. Note limitations in generalizability and research quality.\n\n  Here are the post analyses to synthesize as literature:\n  {postAnalyses}\n"
  combinedNewsletterPrompt := str "\n  Produce a systematic literature review that integrates findings from multiple sources following academic research conventions.\n\n  Structure this review according to standard academic literature review format:\n\n  # Systematic Literature Review: Analysis of Online Discourse\n\n  ## Abstract\n  Begin with a formal abstract (200-250 words) summarizing the review\x27s purpose, methodology, key findings, and implications.\n\n  ## 1. Introduction\n  - Establish research context and significance\n  - Articulate clear research questions\n  - Define scope and objectives of the review\n  - Outline theoretical framework guiding the analysis\n\n  ## 2. Methodology\n  - Detail the systematic review approach\n  - Specify inclusion/exclusion criteria\n  - Explain data extraction and synthesis methods\n  - Address methodological limitations\n\n  ## 3. Results\n  Organize by THEORETICAL CONSTRUCTS rather than sources:\n  - Conceptual Frameworks & Theoretical Developments\n  - Methodological Approaches & Analytical Techniques\n  - Empirical Findings & Evidential Base\n  - Contextual Factors & Boundary Conditions\n  - Contradictions & Theoretical Tensions\n\n  ## 4. Discussion\n  - Synthesize findings across theoretical boundaries\n  - Identify patterns, contradictions, and gaps\n  - Relate findings to existing scholarly literature\n  - Discuss theoretical and practical implications\n\n  ## 5. Conclusion & Research Agenda\n  - Summarize key contributions to the field\n  - Articulate explicit limitations of the review\n  - Propose specific directions for future research\n  - Discuss implications for theory development\n\n  MAINTAIN RIGOROUS ACADEMIC STANDARDS:\n  1. Include ONLY scholarly contributions:\n     - Empirical studies with sound methodology\n     - Theoretical work with conceptual depth\n     - Systematic analyses with supporting evidence\n     - Critical evaluations of existing knowledge\n     - Research with clear theoretical implications\n\n  2. Apply consistent exclusion criteria:\n     - Non-empirical assertions without substantiation\n     - Methodologically unsound investigations\n     - Theoretically superficial observations\n     - Content lacking scholarly contribution\n     - Material outside defined scope parameters\n\n  Employ formal academic writing conventions appropriate for a peer-reviewed journal article. Use precise disciplinary terminology, maintain scholarly objectivity, and construct logical, evidence-based arguments. Address counter-evidence and alternative interpretations.\n\n  CITATION REQUIREMENTS: Implement formal academic citation practices [Author](URL) consistently throughout the text. Include in-text citations for all claims derived from source material.\n\n  Here are the subreddit analyses to synthesize into a comprehensive literature review:\n  {subredditAnalyses}\n"
  newsletterItemPrompt := str "\n  Evaluate this content according to strict academic literature review inclusion criteria.\n\n  Apply the following inclusion criteria for academic merit:\n  - Original empirical research with explicit methodology\n  - Rigorous theoretical contributions with clear conceptual frameworks\n  - Systematic analyses with substantiated arguments\n  - Methodological innovations with research design implications\n  - Critical reviews with comprehensive analysis of existing literature\n  - Interdisciplinary work with theoretical integration across domains\n\n  Apply the following exclusion criteria:\n  - Studies lacking methodological rigor or transparency\n  - Conceptual discussions without theoretical grounding\n  - Claims without sufficient empirical support\n  - Opinion-based or advocacy-oriented content\n  - Non-systematic reviews or narrative summaries\n  - Commercial or promotional content\n  - Studies outside the scope of the defined research questions\n\n  If the content meets inclusion criteria, create a formal literature review entry with:\n  - Formal academic heading identifying the theoretical contribution (## format)\n  - Research design and methodological approach\n  - Key findings with statistical or empirical evidence\n  - Theoretical implications and contribution to knowledge\n  - Limitations and methodological constraints\n  - Research gaps addressed and future research directions\n  - Formal academic citation: [Author, Year]({postLink})\n\n  If the content fails to meet inclusion criteria, respond with \"EXCLUDED_FROM_REVIEW\" only.\n\n  Write in formal academic prose suitable for a peer-reviewed journal article. Employ discipline-specific terminology, maintain objective scholarly distance, and structure content according to academic conventions.\n\n  Material for evaluation:\n  {analysisText}\n"
  combinedNewsletterFooter := str "\n---\n\n## References\n\n[List of all sources cited in this review]\n\n## Appendix: Methodological Notes\n\nThis systematic review followed PRISMA guidelines for identification, screening, and inclusion of relevant sources. The methodology involved a systematic search and screening process, followed by thematic analysis of included materials.\n\n---\n\nDepartment of Interdisciplinary Research\nAcademic Research Division\n"
  exclusionSentinel := str "EXCLUDED_FROM_REVIEW"

/-- The per-item analysis prompt template of the scraper (index.js), verbatim. -/
def ARTICLE_ANALYSIS_PROMPT_TEMPLATE : JStr := str "\n# Analysis: \"{postTitle}\"\n\n## Article Information\nTitle: {postTitle}\nReddit Link: {postLink}\n{externalLinkSection}\n\n## Article Content\n{articleText}\n\n## Top Reddit Comments\n{formattedComments}\n\n## Analysis Task\nPlease analyze both the post content (which may be an image, text, or an external article) and the comments to provide insights on:\n1. Main points of the post/content\n2. Key themes in the comments\n3. Overall sentiment of commenters toward the post topic\n4. Any notable disagreements or controversies in the comments\n\nIf the post contains an image, describe what\x27s in the image and how it relates to the comments.\n\nStart your analysis with a bold heading that includes the post title.\nFormat your analysis in clear sections with descriptive headers.\nUse the style of a concise, informative newsletter like tl;dr sec.\n"

set_option maxRecDepth 40000

/-- The `DEFAULT_REPORT_TYPE` constant (reports.js line 15). -/
def DEFAULT_REPORT_TYPE : JStr := str "newsletter"

/-- The `reportConfigs` map (reports.js lines 353-356). -/
def reportConfigs : List (JStr × ReportConfig) :=
  [(str "newsletter", newsletterConfig), (str "academic", academicConfig)]

/-- Association-list lookup over the *own* keys of the registry literal. -/
def lookupConfig : List (JStr × ReportConfig) → JStr → Option ReportConfig
  | [], _ => none
  | (k, c) :: rest, t => if k = t then some c else lookupConfig rest t

/-- The member names of `Object.prototype` in Node.js.  `reportConfigs` is a
plain object literal, so a property read with one of these names that is not
an own key falls through the prototype chain to the inherited value: a
method, or the prototype object itself for `__proto__`.  Every one of those
values is truthy. -/
def objectPrototypeKeys : List JStr :=
  [str "constructor", str "hasOwnProperty", str "isPrototypeOf",
   str "propertyIsEnumerable", str "toLocaleString", str "toString",
   str "valueOf", str "__proto__", str "__defineGetter__",
   str "__defineSetter__", str "__lookupGetter__", str "__lookupSetter__"]

/-- The value of a JavaScript property read on the `reportConfigs` literal:
an own report config, a truthy value inherited from `Object.prototype`
(recorded abstractly by its name), or `undefined`. -/
inductive JsLookupResult where
  | config (c : ReportConfig)
  | inherited (name : JStr)
  | undef
  deriving DecidableEq

/-- Property read `reportConfigs[type]` with the prototype chain: own keys
first, then the `Object.prototype` members, else `undefined`. -/
def jsIndex (own : List (JStr × ReportConfig)) (key : JStr) : JsLookupResult :=
  match lookupConfig own key with
  | some c => JsLookupResult.config c
  | none =>
    if key ∈ objectPrototypeKeys then JsLookupResult.inherited key
    else JsLookupResult.undef

/-- JavaScript truthiness of a property-read result: every config object and
every inherited `Object.prototype` member is truthy; only `undefined` is
falsy. -/
def JsLookupResult.truthy : JsLookupResult → Bool
  | JsLookupResult.undef => false
  | _ => true

/-- JavaScript `a || b` on property-read results. -/
def jsOrValue (a b : JsLookupResult) : JsLookupResult :=
  if a.truthy then a else b

/-- Model of `getReportConfig` (reports.js lines 363-366):
`reportConfigs[type] || reportConfigs[DEFAULT_REPORT_TYPE]`, with the
property read modelled faithfully, prototype chain included: for an
`Object.prototype` member name such as `toString` the read yields the
inherited truthy method, which `||` keeps, so no fallback to the default
happens there. -/
def getReportConfig (type : JStr) : JsLookupResult :=
  jsOrValue (jsIndex reportConfigs type) (jsIndex reportConfigs DEFAULT_REPORT_TYPE)

/-- Model of `getAvailableReportTypes` (reports.js lines 372-374). -/
def getAvailableReportTypes : List JStr := reportConfigs.map Prod.fst

/-! ## The run-directory filesystem

A run directory holds one directory per subreddit; a subreddit directory
holds `post_*` directories (each with `metadata.json`, and an analysis as
`analysis.md` or legacy `analysis.txt`) plus, once the Aggregator has run,
`subreddit_analysis.md`.  `metadata : Option Metadata` models
"`metadata.json` exists and parses"; file contents are the `Option` payloads.
Write and delete effects are additionally logged as `FsWrite` records so
that theorems can speak about which files a stage touches. -/

structure Metadata where
  title : JStr
  link : JStr
  externalLink : Option JStr
  deriving DecidableEq

structure PostDir where
  name : JStr
  metadata : Option Metadata
  analysisMd : Option JStr
  analysisTxt : Option JStr
  deriving DecidableEq

structure GroupDir where
  posts : List PostDir
  subredditAnalysis : Option JStr
  deriving DecidableEq

/-- The run directory: subreddit name ↦ subreddit directory. -/
abbrev FS := List (JStr × GroupDir)

def lookupGroup : FS → JStr → Option GroupDir
  | [], _ => none
  | (k, g) :: rest, s => if k = s then some g else lookupGroup rest s

/-- Replace the directory of subreddit `s` (a no-op when `s` is absent;
the model only updates groups it has found). -/
def updateGroup : FS → JStr → GroupDir → FS
  | [], _, _ => []
  | (k, g) :: rest, s, g' =>
    if k = s then (k, g') :: rest else (k, g) :: updateGroup rest s g'

/-- Model of the existence check plus read of a `subreddit_analysis.md`. -/
def lookupAnalysis (fs : FS) (s : JStr) : Option JStr :=
  (lookupGroup fs s).bind (·.subredditAnalysis)

/-- A logged `fs.writeFileSync`: directory path components, file name,
content. -/
structure FsWrite where
  path : List JStr
  file : JStr
  content : JStr
  deriving DecidableEq

/-! ## The Aggregator: `generateSubredditAnalysis` (`src/analyze.js` 29-132)

The per-post part of the loop is split into `readAnalysisFiles` (the
analysis-file check with the legacy `analysis.txt` → `analysis.md`
migration, lines 65-88) and `readPostStep` (the whole loop body including
the `metadata.json` check, lines 53-96). -/

/-- Result of the per-post analysis-file check: the text found (if any), the
post directory afterwards, and the logged write/delete effects.  `wrote`
pairs are (file name, content); `removed` is file names. -/
structure ReadOut where
  found : Option JStr
  post : PostDir
  wrote : List (JStr × JStr)
  removed : List JStr

/-- Lines 65-88 of analyze.js: prefer `analysis.md`; otherwise migrate a
legacy `analysis.txt` (write `.md` with the same content, delete `.txt`);
otherwise nothing is found. -/
def readAnalysisFiles (p : PostDir) : ReadOut :=
  match p.analysisMd with
  | some t => ⟨some t, p, [], []⟩
  | none =>
    match p.analysisTxt with
    | some t =>
      ⟨some t, { p with analysisMd := some t, analysisTxt := none },
        [(str "analysis.md", t)], [str "analysis.txt"]⟩
    | none => ⟨none, p, [], []⟩

/-- One iteration of the post loop (lines 53-96): skip when
`metadata.json` is missing, otherwise read (and possibly migrate) the
analysis; on success the loop pushes `(title, analysis, link)` data. -/
def readPostStep (p : PostDir) : Option (Metadata × JStr) × ReadOut :=
  match p.metadata with
  | none => (none, ⟨none, p, [], []⟩)
  | some md =>
    let r := readAnalysisFiles p
    match r.found with
    | none => (none, r)
    | some t => (some (md, t), r)

/-- The directory filter of line 43: `item.startsWith` against the literal
`post_`. -/
def isPostDir (p : PostDir) : Bool := (str "post_").isPrefixOf p.name

def postDirsOf (g : GroupDir) : List PostDir := g.posts.filter isPostDir

/-- The collected `postAnalyses` array (lines 51-96). -/
def saCollect (ps : List PostDir) : List (Metadata × JStr) :=
  ps.filterMap (fun p => (readPostStep p).1)

/-- One tagged section of the synthesis prompt (lines 106-108):
`--- POST ${index + 1}: ${title} ---\nPost URL: ${link}\n${analysis}\n`. -/
def mkPostSection (idx1 : Nat) (title link analysis : JStr) : JStr :=
  str "--- POST " ++ natStr idx1 ++ str ": " ++ title ++ str " ---" ++
    str "\nPost URL: " ++ link ++ str "\n" ++ analysis ++ str "\n"

/-- The tagged sections, one per collected item, in order. -/
def saSections (items : List (Metadata × JStr)) : List JStr :=
  items.enum.map (fun e => mkPostSection (e.1 + 1) e.2.1.title e.2.1.link e.2.2)

/-- The joined `postAnalyses.map(...).join(..)` block of lines 106-108. -/
def saBlock (items : List (Metadata × JStr)) : JStr :=
  List.intercalate (str "\n\n") (saSections items)

/-- The synthesis prompt (lines 102-108): the per-config
`subredditAnalysisPrompt` with `{subreddit}`, `{postCount}` and
`{postAnalyses}` substituted globally, in that order. -/
def saPrompt (cfg : ReportConfig) (subreddit : JStr)
    (items : List (Metadata × JStr)) : JStr :=
  jsReplaceAll
    (jsReplaceAll
      (jsReplaceAll cfg.subredditAnalysisPrompt (str "{subreddit}") subreddit)
      (str "{postCount}") (natStr items.length))
    (str "{postAnalyses}") (saBlock items)

/-- The catch block of lines 128-131 turns any thrown error into this
in-band error string. -/
def errSA (msg : JStr) : JStr := str "Error generating subreddit analysis: " ++ msg

/-- The Node `TypeError` message produced when line 103 reads `.subredditAnalysisPrompt`
off an `undefined` `reportConfig`. -/
def undefinedConfigMsg : JStr :=
  str "Cannot read properties of undefined (reading \x27subredditAnalysisPrompt\x27)"

structure SAOut where
  result : JStr
  fs : FS
  prompts : List JStr
  writes : List FsWrite

/-- Model of `generateSubredditAnalysis(subreddit, runDir, reportConfig)`
(analyze.js lines 29-132).  `cfg? = none` models the call with the
`reportConfig` argument omitted (as `generateCombinedNewsletter` line 170
does), i.e. `reportConfig === undefined`. -/
def generateSubredditAnalysis (subreddit runDir : JStr) (fs : FS)
    (cfg? : Option ReportConfig) (llm : JStr → Except JStr JStr) : SAOut :=
  match lookupGroup fs subreddit with
  | none =>
    ⟨errSA (str "Subreddit directory not found: " ++ runDir ++ str "/" ++ subreddit),
      fs, [], []⟩
  | some g =>
    let postDirs := postDirsOf g
    if postDirs = [] then
      ⟨errSA (str "No post directories found in " ++ runDir ++ str "/" ++ subreddit),
        fs, [], []⟩
    else
      let items := saCollect postDirs
      let posts' := g.posts.map (fun p => if isPostDir p then (readPostStep p).2.post else p)
      let writes := postDirs.flatMap (fun p =>
        ((readPostStep p).2.wrote).map (fun fc => FsWrite.mk [runDir, subreddit, p.name] fc.1 fc.2))
      let fs1 := updateGroup fs subreddit { g with posts := posts' }
      if items = [] then
        ⟨errSA (str "No valid post analyses found for r/" ++ subreddit), fs1, [], writes⟩
      else
        match cfg? with
        | none => ⟨errSA undefinedConfigMsg, fs1, [], writes⟩
        | some cfg =>
          let prompt := saPrompt cfg subreddit items
          match llm prompt with
          | Except.error e => ⟨errSA e, fs1, [prompt], writes⟩
          | Except.ok analysis =>
            ⟨analysis,
              updateGroup fs subreddit { g with posts := posts', subredditAnalysis := some analysis },
              [prompt],
              writes ++ [FsWrite.mk [runDir, subreddit] (str "subreddit_analysis.md") analysis]⟩

/-! ## The Digest Composer: `generateCombinedNewsletter` (`src/analyze.js` 142-233) -/

/-- The newsletter intro (lines 155-158): `{recipient_name}`, `{date}` and
`{subreddit}` substituted globally, in that order; a missing recipient falls
back to `there` and `{subreddit}` becomes the literal `combined`. -/
def cnIntro (cfg : ReportConfig) (recipient : Option JStr) (date : JStr) : JStr :=
  jsReplaceAll
    (jsReplaceAll
      (jsReplaceAll cfg.newsletterIntro (str "{recipient_name}") (jsOrDefault recipient (str "there")))
      (str "{date}") date)
    (str "{subreddit}") (str "combined")

/-- One tagged per-group section of the combined prompt (lines 193-197). -/
def cnSection (sa : JStr × JStr) : JStr :=
  str "--- SUBREDDIT: r/" ++ sa.1 ++ str " ---" ++
    str "\nSubreddit URL: " ++ (str "https://reddit.com/r/" ++ sa.1) ++
    str "\n" ++ sa.2 ++ str "\n"

/-- The combined-newsletter prompt (lines 192-197). -/
def cnPrompt (cfg : ReportConfig) (included : List (JStr × JStr)) : JStr :=
  jsReplaceAll cfg.combinedNewsletterPrompt (str "{subredditAnalyses}")
    (List.intercalate (str "\n\n") (included.map cnSection))

/-- The digest output filename (lines 223-224):
`combined_<reportType>_<recipientName-or-all>.md`. -/
def combinedFilename (cfg : ReportConfig) (recipient : Option JStr) : JStr :=
  str "combined_" ++ normTypeName cfg.name ++ str "_" ++
    jsOrDefault recipient (str "all") ++ str ".md"

/-- The catch block of lines 229-232. -/
def errCN (msg : JStr) : JStr := str "Error generating topic-based digest: " ++ msg

/-- State threaded through the per-subreddit loop of lines 163-185:
the (possibly migrated) filesystem, the subreddits for which an on-demand
`generateSubredditAnalysis` was attempted, the `(subreddit, analysis)`
pairs collected, and all file writes performed by those attempts. -/
structure CNAcc where
  fs : FS
  attempts : List JStr
  included : List (JStr × JStr)
  writes : List FsWrite
  deriving DecidableEq

/-- The per-subreddit loop (lines 163-185).  For a subreddit whose
`subreddit_analysis.md` is absent it calls `generateSubredditAnalysis`
*without* the `reportConfig` argument (line 170) and re-checks; if the file
is still absent the subreddit is skipped. -/
def cnLoop (runDir : JStr) (llm : JStr → Except JStr JStr) :
    List JStr → FS → CNAcc
  | [], fs => ⟨fs, [], [], []⟩
  | s :: ss, fs =>
    match lookupAnalysis fs s with
    | some a =>
      let rest := cnLoop runDir llm ss fs
      ⟨rest.fs, rest.attempts, (s, a) :: rest.included, rest.writes⟩
    | none =>
      let o := generateSubredditAnalysis s runDir fs none llm
      match lookupAnalysis o.fs s with
      | none =>
        let rest := cnLoop runDir llm ss o.fs
        ⟨rest.fs, s :: rest.attempts, rest.included, o.writes ++ rest.writes⟩
      | some a =>
        let rest := cnLoop runDir llm ss o.fs
        ⟨rest.fs, s :: rest.attempts, (s, a) :: rest.included, o.writes ++ rest.writes⟩

structure CNOut where
  result : JStr
  fs : FS
  attempts : List JStr
  included : List (JStr × JStr)
  writes : List FsWrite
  prompts : List JStr
  digestWrite : Option FsWrite
  deriving DecidableEq

/-- Model of `generateCombinedNewsletter(recipientName, subreddits, runDir,
reportConfig)` (analyze.js lines 142-233).  `date` stands for the formatted
current date of lines 147-152. -/
def generateCombinedNewsletter (recipient : Option JStr) (subreddits : List JStr)
    (runDir : JStr) (fs : FS) (cfg : ReportConfig) (date : JStr)
    (llm : JStr → Except JStr JStr) : CNOut :=
  let intro := cnIntro cfg recipient date
  let acc := cnLoop runDir llm subreddits fs
  if acc.included.isEmpty then
    ⟨errCN (str "No valid subreddit analyses found"), acc.fs, acc.attempts,
      acc.included, acc.writes, [], none⟩
  else
    let prompt := cnPrompt cfg acc.included
    match llm prompt with
    | Except.error e =>
      ⟨errCN e, acc.fs, acc.attempts, acc.included, acc.writes, [prompt], none⟩
    | Except.ok body =>
      let newsletter := intro ++ body ++ cfg.combinedNewsletterFooter
      let w := FsWrite.mk [str "data", str "reports", jsBasename runDir]
        (combinedFilename cfg recipient) newsletter
      ⟨newsletter, acc.fs, acc.attempts, acc.included, acc.writes, [prompt], some w⟩

/-! ## The per-item quality-gate composer: `generateNewsletter`
(`index.js` lines 1925-2026 of the scraper) -/

/-- The intro instantiation of lines 1955-1958: single (first-occurrence)
`replace` of `{recipient_name}`, `{subreddit}`, `{date}`, in that order. -/
def gnIntro (cfg : ReportConfig) (recipient : Option JStr)
    (subreddit date : JStr) : JStr :=
  jsReplaceFirst
    (jsReplaceFirst
      (jsReplaceFirst cfg.newsletterIntro (str "{recipient_name}") (jsOrDefault recipient (str "there")))
      (str "{subreddit}") subreddit)
    (str "{date}") date

/-- The per-item quality-gate prompt of lines 1988-1990: single `replace`
of `{postLink}` then `{analysisText}`. -/
def gnItemPrompt (cfg : ReportConfig) (md : Metadata) (analysisText : JStr) : JStr :=
  jsReplaceFirst
    (jsReplaceFirst cfg.newsletterItemPrompt (str "{postLink}") md.link)
    (str "{analysisText}") analysisText

/-- The footer instantiation of lines 2012-2013. -/
def gnFooter (cfg : ReportConfig) (subreddit : JStr) : JStr :=
  jsReplaceFirst cfg.combinedNewsletterFooter (str "{subreddit}") subreddit

/-- Lines 1973-1985: read `analysis.md`, falling back to legacy
`analysis.txt`; no migration is performed here. -/
def gnReadAnalysis (p : PostDir) : Option JStr :=
  match p.analysisMd with
  | some t => some t
  | none => p.analysisTxt

/-- The post loop of lines 1961-2009: per qualifying post one model call;
a response that trims to the literal `"LOW_VALUE_CONTENT"` contributes
nothing, any other response contributes `response ++ "\n\n"`.  Returns the
prompts sent and either the accumulated body or the first model error
(which aborts the whole function into its catch block). -/
def gnLoop (cfg : ReportConfig) (llm : JStr → Except JStr JStr) :
    List PostDir → List JStr × Except JStr JStr
  | [] => ([], Except.ok [])
  | p :: ps =>
    match p.metadata with
    | none => gnLoop cfg llm ps
    | some md =>
      match gnReadAnalysis p with
      | none => gnLoop cfg llm ps
      | some t =>
        let prompt := gnItemPrompt cfg md t
        match llm prompt with
        | Except.error e => ([prompt], Except.error e)
        | Except.ok r =>
          let rest := gnLoop cfg llm ps
          (prompt :: rest.1,
            rest.2.map (fun body =>
              (if jsTrim r = str "LOW_VALUE_CONTENT" then [] else r ++ str "\n\n") ++ body))

/-- The catch block of lines 2022-2025. -/
def errGN (msg : JStr) : JStr := str "Error generating newsletter: " ++ msg

structure GNOut where
  result : JStr
  prompts : List JStr
  write : Option FsWrite
  deriving DecidableEq

/-- Model of `generateNewsletter(recipientName, subreddit, runDir, reportConfig)`
(index.js lines 1925-2026). -/
def generateNewsletter (recipient : Option JStr) (subreddit runDir : JStr)
    (fs : FS) (cfg : ReportConfig) (date : JStr)
    (llm : JStr → Except JStr JStr) : GNOut :=
  match lookupGroup fs subreddit with
  | none =>
    ⟨errGN (str "Subreddit directory not found: " ++ runDir ++ str "/" ++ subreddit), [], none⟩
  | some g =>
    let postDirs := postDirsOf g
    if postDirs.isEmpty then
      ⟨errGN (str "No post directories found in " ++ runDir ++ str "/" ++ subreddit), [], none⟩
    else
      let (prompts, bodyE) := gnLoop cfg llm postDirs
      match bodyE with
      | Except.error e => ⟨errGN e, prompts, none⟩
      | Except.ok body =>
        let newsletter := gnIntro cfg recipient subreddit date ++ body ++ gnFooter cfg subreddit
        let fname := subreddit ++ str "_" ++ normTypeName cfg.name ++ str "_" ++
          jsOrDefault recipient (str "default") ++ str ".md"
        ⟨newsletter, prompts, some (FsWrite.mk [runDir] fname newsletter)⟩

/-! ## The Item Analyzer: `analyzeArticleAndComments`
(`index.js` lines 1484-1573 of the scraper) -/

/-- A comment as extracted by `extractComments` (index.js lines 1421-1472). -/
structure RedditComment where
  author : JStr
  score : JStr
  isOP : Bool
  depth : Nat
  id : JStr
  timestamp : JStr
  text : JStr
  deriving DecidableEq

/-- One formatted comment (lines 1494-1496). -/
def fmtComment (c : RedditComment) : JStr :=
  str "---\nAuthor: " ++ c.author ++
    (if c.isOP then str " (Original Poster)" else []) ++
    str "\nScore: " ++ c.score ++ str "\nComment: " ++ c.text ++ str "\n---"

/-- Lines 1489-1499: the first 10 comments, in the given order, formatted
and joined; the literal `No comments available` when there are none. -/
def formattedComments (comments : List RedditComment) : JStr :=
  if comments.isEmpty then str "No comments available"
  else List.intercalate (str "\n\n") ((comments.take 10).map fmtComment)

/-- The analysis prompt (lines 1502-1510): the template with `{postTitle}`,
`{postLink}`, `{externalLinkSection}`, `{articleText}`,
`{formattedComments}` substituted (first occurrence each), in that order. -/
def aacPrompt (articleText : JStr) (comments : List RedditComment)
    (postTitle postLink externalLink : JStr) : JStr :=
  jsReplaceFirst
    (jsReplaceFirst
      (jsReplaceFirst
        (jsReplaceFirst
          (jsReplaceFirst ARTICLE_ANALYSIS_PROMPT_TEMPLATE (str "{postTitle}") postTitle)
          (str "{postLink}") postLink)
        (str "{externalLinkSection}")
        (if externalLink = [] then [] else str "External Link: " ++ externalLink))
      (str "{articleText}")
      (if articleText = [] then str "No article content available" else articleText))
    (str "{formattedComments}") (formattedComments comments)

/-- One part of the multimodal request content array (lines 1512-1548). -/
inductive ContentPart where
  | text (s : JStr)
  | image (dataUrl : JStr)
  deriving DecidableEq

structure AOut where
  result : JStr
  calls : List (List ContentPart)
  deriving DecidableEq

/-- Model of `analyzeArticleAndComments(articleText, comments, postTitle, postLink,
externalLink, postScreenshotPath)` (index.js lines 1484-1573).  `shot`
abstracts the screenshot pipeline of lines 1517-1553: `none` = no path or
file absent, `some (Except.error e)` = sharp processing failed (the image is
then skipped, line 1550), `some (Except.ok b)` = processed base64 payload. -/
def analyzeArticleAndComments (articleText : JStr) (comments : List RedditComment)
    (postTitle postLink : JStr) (externalLink : JStr)
    (shot : Option (Except JStr JStr))
    (llm : List ContentPart → Except JStr JStr) : AOut :=
  let prompt := aacPrompt articleText comments postTitle postLink externalLink
  let content := ContentPart.text prompt ::
    (match shot with
     | some (Except.ok b) => [ContentPart.image (str "data:image/png;base64," ++ b)]
     | _ => [])
  match llm content with
  | Except.error e =>
    ⟨str "Error analyzing post content and comments: " ++ e, [content]⟩
  | Except.ok r =>
    ⟨if r = [] then str "No analysis generated" else r, [content]⟩

/-- Occurrence count of a subreddit name in a list (used to state "exactly
one on-demand attempt"). -/
def countOcc (s : JStr) : List JStr → Nat
  | [] => 0
  | x :: xs => (if x = s then 1 else 0) + countOcc s xs

/-- A post directory holding only a legacy `analysis.txt`. -/
def cxMigPost : PostDir :=
  { name := str "post_1",
    metadata := some { title := str "T", link := str "L", externalLink := none },
    analysisMd := none,
    analysisTxt := some (str "legacy") }

/-- A run directory with one group `a` whose only post has a legacy
analysis and whose `subreddit_analysis.md` is absent. -/
def cxMigFS : FS := [(str "a", { posts := [cxMigPost], subredditAnalysis := none })]

/-- A model oracle that always answers `OUT`. -/
def cxLLM : JStr → Except JStr JStr := fun _ => Except.ok (str "OUT")

/-! ## Concrete fixtures used by witnesses and counterexamples -/

/-- A post of group `sub` with metadata and a current-format analysis. -/
def cxAcadPost : PostDir :=
  { name := str "post_1",
    metadata := some { title := str "T", link := str "L", externalLink := none },
    analysisMd := some (str "A"),
    analysisTxt := none }

/-- A run directory with the single group `sub` holding `cxAcadPost`. -/
def cxAcadFS : FS := [(str "sub", { posts := [cxAcadPost], subredditAnalysis := none })]

/-- A model oracle that answers the exclusion sentinel designated by the
academic config, for every prompt. -/
def cxAcadLLM : JStr → Except JStr JStr := fun _ => Except.ok (str "EXCLUDED_FROM_REVIEW")

/-- A complete post whose persisted analysis is the GetSubstitution-active
sequence dollar-ampersand. -/
def cxDollarPost : PostDir :=
  { name := str "post_1",
    metadata := some { title := str "T", link := str "L", externalLink := none },
    analysisMd := some (str "$&"),
    analysisTxt := none }

/-- A run directory with the single group `sub` holding `cxDollarPost`. -/
def cxDollarFS : FS := [(str "sub", { posts := [cxDollarPost], subredditAnalysis := none })]

/-! ## Literal chunks of the newsletter synthesis template

The `subredditAnalysisPrompt` of `newsletterConfig` splits around its
placeholder occurrences (two of `\x7bsubreddit\x7d`, one of
`\x7bpostCount\x7d`, one of `\x7bpostAnalyses\x7d`) into the literal
chunks below (`nlTmpl_decomp` proves the decomposition).  They let the
global replaces be evaluated chunk by chunk, so no single computation
walks the whole template. -/

/-- Template text before the first `\x7bsubreddit\x7d`. -/
def nlA0 : JStr := str "\n  Create a comprehensive analysis of the subreddit r/"

/-- Template text between the first `\x7bsubreddit\x7d` and
`\x7bpostCount\x7d`. -/
def nlA1a : JStr := str " based on the posts provided.\n\n  Analyze these "

/-- First half of the template text between `\x7bpostCount\x7d` and the
second `\x7bsubreddit\x7d`. -/
def nlA1b1 : JStr := str " posts collectively to identify:\n  1. Major themes and topics across posts\n  2. Notable trends and patterns in the content\n  3. Community sentiment and points of controversy\n  4. Significant insights or interesting discoveries\n\n  Format as a well-structured briefing with:\n  - A descriptive title for the subreddit analysis\n  - An executive summary at the top (2-3 sentences)\n  - Sections with clear headings for each major theme\n  - Short, information-dense paragraphs\n  - Occasional personal insights marked with 💡\n  - Actionable takeaways when relevant\n\n  Focus on FILTERING and PRIORITIZING valuable content:\n\n  1. HIGHLIGHT the most important, informative, and newsworthy posts\n     - Breaking news and major developments\n     - Significant releases or updates\n     - Important technical informa"

/-- Second half of the template text between `\x7bpostCount\x7d` and the
second `\x7bsubreddit\x7d`. -/
def nlA1b2 : JStr := str "tion\n     - Expert analysis and high-quality insights\n     - Notable trends with real impact\n\n  2. IGNORE entirely:\n     - Shitposts, memes and jokes\n     - Common knowledge/redundant information\n     - Low-effort questions and discussions\n     - Personal anecdotes without broader relevance\n     - Trivial updates with minimal impact\n\n  Write with the voice of a highly knowledgeable and insightful analyst who has an extraordinary ability to synthesize information efficiently. Maintain a professional, authoritative tone with occasional flashes of understated wit. The goal is to come across as a uniquely perceptive human editor with uncanny insight.\n\n  IMPORTANT: Include specific quotes, statistics, usernames, trends and concrete examples from the analyzed posts. Reference actual content rather than making general observations. Your analysis should be so specific that it could only apply to this particular set of r/"

/-- Template text between the second `\x7bsubreddit\x7d` and
`\x7bpostAnalyses\x7d`. -/
def nlA2a : JStr := str " posts.\n\n  ALWAYS include direct links to the original posts using markdown format [Title](URL). For each significant post you mention, add its link so readers can visit the original sources. The post URLs are included with each post analysis below.\n\n  Remember, the goal is QUALITY over QUANTITY - it\x27s better to deeply analyze a few valuable posts than to superficially cover many low-value ones.\n\n  Here are the post analyses to synthesize:\n  "

/-- Template text after `\x7bpostAnalyses\x7d`. -/
def nlA2b : JStr := str "\n"


/-- Executable check that no post directory of `subreddit` holds an
`analysis.md` or a legacy `analysis.txt` (vacuously true when the directory
itself is missing). -/
def groupHasNoAnalyses (fs : FS) (subreddit : JStr) : Bool :=
  match lookupGroup fs subreddit with
  | none => true
  | some g => (postDirsOf g).all (fun p => p.analysisMd.isNone && p.analysisTxt.isNone)

/-- A model oracle answering the newsletter sentinel with surrounding
whitespace (exercising the `.trim()`). -/
def cxLowLLM : JStr → Except JStr JStr := fun _ => Except.ok (str " LOW_VALUE_CONTENT ")

/-- A group whose only post directory has no analysis file at all. -/
def cxNoAnFS : FS :=
  [(str "a",
    { posts := [{ name := str "post_1",
                  metadata := some { title := str "T", link := str "L", externalLink := none },
                  analysisMd := none, analysisTxt := none }],
      subredditAnalysis := none })]

/-- A concrete comment and a trivially succeeding multimodal oracle. -/
def cxComment : RedditComment :=
  { author := str "u", score := str "1", isOP := false, depth := 0,
    id := str "i", timestamp := str "ts", text := str "hi" }

def cxPartLLM : List ContentPart → Except JStr JStr := fun _ => Except.ok (str "R")

/-! ## Theorems -/

/-! ### Basic lemmas about the string machinery -/

theorem containsSub_iff_infix {pat s : JStr} :
    containsSub pat s = true ↔ pat <:+: s := by
  induction s with
  | nil =>
    simp only [containsSub, decide_eq_true_eq]
    constructor
    · intro h
      exact h ▸ List.nil_infix
    · exact List.eq_nil_of_infix_nil
  | cons c cs ih =>
    simp only [containsSub, Bool.or_eq_true, ih, List.infix_cons_iff,
      List.isPrefixOf_iff_prefix]

theorem splitFirst_eq_none_of_not_infix {pat s : JStr} (h : ¬ pat <:+: s) :
    splitFirst pat s = none := by
  induction s with
  | nil =>
    have hne : pat ≠ [] := by
      intro hp
      exact h (hp ▸ List.nil_infix)
    simp [splitFirst, hne]
  | cons c cs ih =>
    simp only [splitFirst]
    rw [if_neg, ih]
    · intro hinf
      exact h (hinf.trans (List.suffix_cons c cs).isInfix)
    · intro hpre
      exact h ( List.isPrefixOf_iff_prefix.mp hpre).isInfix

theorem splitFirst_isSome_of_infix {pat s : JStr} (h : pat <:+: s) :
    (splitFirst pat s).isSome := by
  by_contra hnone
  rw [Option.not_isSome_iff_eq_none] at hnone
  induction s with
  | nil =>
    have : pat = [] := List.eq_nil_of_infix_nil h
    subst this
    simp [splitFirst] at hnone
  | cons c cs ih =>
    simp only [splitFirst] at hnone
    by_cases hpre : pat.isPrefixOf (c :: cs)
    · simp [hpre] at hnone
    · rw [if_neg hpre] at hnone
      rcases (List.infix_cons_iff).mp h with hcase | hcase
      · exact hpre ( List.isPrefixOf_iff_prefix.mpr hcase)
      · cases hsf : splitFirst pat cs with
        | some v => simp [hsf] at hnone
        | none => exact ih hcase hsf

/-- The tail-recursive length is `List.length` plus the accumulator. -/
theorem lenTR_eq (s : JStr) (n : Nat) : lenTR s n = s.length + n := by
  induction s generalizing n with
  | nil => simp [lenTR]
  | cons c cs ih =>
    simp only [lenTR, ih, List.length_cons]
    omega

/-- The tail-recursive scan agrees with `splitFirst`, with the accumulator
prepended reversed. -/
theorem splitFirstTR_eq (pat : JStr) (acc s : JStr) :
    splitFirstTR pat acc s =
      (splitFirst pat s).map (fun pr => (acc.reverse ++ pr.1, pr.2)) := by
  induction s generalizing acc with
  | nil =>
    by_cases hp : pat = []
    · subst hp
      simp [splitFirstTR, splitFirst, List.isPrefixOf]
    · have hnp : ¬ ([] : JStr).isPrefixOf [] = true ∨ True := Or.inr trivial
      have hpre : pat.isPrefixOf ([] : JStr) = false := by
        cases pat with
        | nil => exact absurd rfl hp
        | cons a l => rfl
      simp [splitFirstTR, splitFirst, hp, hpre]
  | cons c cs ih =>
    by_cases hp : pat.isPrefixOf (c :: cs)
    · simp [splitFirstTR, splitFirst, hp]
    · rw [splitFirstTR]
      rw [if_neg (by exact fun hb => hp hb)]
      simp only [splitFirst]
      rw [if_neg (by exact fun hb => hp hb)]
      rw [ih]
      cases splitFirst pat cs with
      | none => rfl
      | some pr => simp

/-- On an empty accumulator the tail-recursive scan is `splitFirst`. -/
theorem splitFirstTR_nil (pat s : JStr) : splitFirstTR pat [] s = splitFirst pat s := by
  rw [splitFirstTR_eq]
  cases splitFirst pat s with
  | none => rfl
  | some pr => simp

/-- The boolean scan `eqJ` decides string equality. -/
theorem eqJ_iff {x y : JStr} : eqJ x y = true ↔ x = y := by
  induction x generalizing y with
  | nil =>
    cases y with
    | nil => simp [eqJ]
    | cons b bs => simp [eqJ]
  | cons a as ih =>
    cases y with
    | nil => simp [eqJ]
    | cons b bs =>
      simp [eqJ, ih, beq_iff_eq]

/-- GetSubstitution is the identity on a replacement string that holds no
dollar character, the only case in which JavaScript carries the replacement
into the subject verbatim. -/
theorem getSubstitution_no_dollar {pat pre suf rep : JStr} (h : '$' ∉ rep) :
    getSubstitution pat pre suf rep = rep := by
  induction rep with
  | nil => rfl
  | cons c rest ih =>
    have hc : ¬ c = '$' := by
      intro hceq
      subst hceq
      exact h (List.mem_cons_self _ _)
    have hr : '$' ∉ rest := fun hm => h (List.mem_cons_of_mem c hm)
    rw [getSubstitution.eq_def]
    simp only []
    rw [if_neg hc, ih hr]

/-- When the pattern occurs and the replacement holds no dollar character,
`jsReplaceAll` really inserts the replacement verbatim: the result decomposes
as `pre ++ rep ++ suf`.  (Used to show that the substituted `{postAnalyses}`
block is an infix of the synthesis prompt.) -/
theorem jsReplaceAll_decomp {pat s : JStr} (rep : JStr)
    (hne : pat ≠ []) (hocc : pat <:+: s) (hdollar : '$' ∉ rep) :
    ∃ pre suf, jsReplaceAll s pat rep = pre ++ rep ++ suf := by
  have hs : s ≠ [] := by
    intro hnil
    subst hnil
    exact hne (List.eq_nil_of_infix_nil hocc)
  obtain ⟨n, hn⟩ : ∃ n, s.length = n + 1 := by
    cases s with
    | nil => exact absurd rfl hs
    | cons a l => exact ⟨l.length, rfl⟩
  have hsome := splitFirst_isSome_of_infix hocc
  obtain ⟨⟨pre, suf⟩, hsf⟩ := Option.isSome_iff_exists.mp hsome
  refine ⟨pre, jsReplaceAllAux pat rep n (pre ++ pat) suf, ?_⟩
  simp [jsReplaceAll, hne, lenTR_eq, hn, jsReplaceAllAux, splitFirstTR_nil, hsf,
    getSubstitution_no_dollar hdollar]

/-- The dollar-free replacement is an infix of the result whenever the
pattern occurs. -/
theorem jsReplaceAll_infix {pat s : JStr} (rep : JStr)
    (hne : pat ≠ []) (hocc : pat <:+: s) (hdollar : '$' ∉ rep) :
    rep <:+: jsReplaceAll s pat rep := by
  obtain ⟨pre, suf, hd⟩ := jsReplaceAll_decomp rep hne hocc hdollar
  exact ⟨pre, suf, hd.symm⟩

/-- When the pattern does not occur before the marked occurrence (no
occurrence starts inside `A`, including straddles into the pattern), the
scan finds exactly the marked occurrence. -/
theorem splitFirst_chunk {pat A R : JStr} (hne : pat ≠ [])
    (hno : containsSub pat (A ++ pat.dropLast) = false) :
    splitFirst pat (A ++ (pat ++ R)) = some (A, R) := by
  induction A with
  | nil =>
    cases hp : pat with
    | nil => exact absurd hp hne
    | cons a as =>
      subst hp
      simp only [List.nil_append, List.cons_append, splitFirst]
      split
      · show some ([], ((a :: as) ++ R).drop (a :: as).length) = some ([], R)
        rw [List.drop_left]
      · rename_i hb
        exact absurd (List.isPrefixOf_iff_prefix.mpr ⟨R, by simp⟩) hb
  | cons c A' ih =>
    have hno2 : containsSub pat (A' ++ pat.dropLast) = false := by
      have h := hno
      simp only [List.cons_append, containsSub, Bool.or_eq_false_iff] at h
      exact h.2
    have hnoP : ¬ pat <:+: ((c :: A') ++ pat.dropLast) := by
      intro hocc
      rw [ containsSub_iff_infix.mpr hocc] at hno
      exact absurd hno (by decide)
    simp only [List.cons_append, List.append_eq, splitFirst]
    split
    · rename_i hb
      exfalso
      have hpat : pat <+: c :: (A' ++ (pat ++ R)) := List.isPrefixOf_iff_prefix.mp hb
      have hL : (c :: (A' ++ pat.dropLast)) <+: c :: (A' ++ (pat ++ R)) := by
        obtain ⟨t, ht⟩ := List.dropLast_prefix pat
        refine ⟨t ++ R, ?_⟩
        show c :: (A' ++ pat.dropLast ++ (t ++ R)) = c :: (A' ++ (pat ++ R))
        rw [List.append_assoc, ← List.append_assoc pat.dropLast t R, ht]
      have hlen : pat.length ≤ (c :: (A' ++ pat.dropLast)).length := by
        simp only [List.length_cons, List.length_append, List.length_dropLast]
        have h0 : 0 < pat.length := List.length_pos.mpr hne
        omega
      have hinf : pat <+: c :: (A' ++ pat.dropLast) :=
        List.prefix_of_prefix_length_le hpat hL hlen
      exact hnoP hinf.isInfix
    · rw [ih hno2]

/-- Splitting a no-occurrence check at a chunk boundary: it is enough to
rule the pattern out over the left part extended by one pattern length of
straddle room, and over the right part. -/
theorem containsSub_append_false {pat X Y : JStr} (hne : pat ≠ [])
    (hx : containsSub pat (X ++ Y.take (pat.length - 1)) = false)
    (hy : containsSub pat Y = false) :
    containsSub pat (X ++ Y) = false := by
  induction X with
  | nil => simpa using hy
  | cons c X' ih =>
    have hx2 : containsSub pat (X' ++ Y.take (pat.length - 1)) = false := by
      have h := hx
      simp only [List.cons_append, containsSub, Bool.or_eq_false_iff] at h
      exact h.2
    have hxP : ¬ pat <:+: ((c :: X') ++ Y.take (pat.length - 1)) := by
      intro hocc
      rw [ containsSub_iff_infix.mpr hocc] at hx
      exact absurd hx (by decide)
    simp only [List.cons_append, containsSub, Bool.or_eq_false_iff]
    refine ⟨?_, ih hx2⟩
    by_contra hb
    rw [Bool.not_eq_false] at hb
    have hpat : pat <+: c :: (X' ++ Y) := List.isPrefixOf_iff_prefix.mp hb
    have hpre2 : (c :: (X' ++ Y.take (pat.length - 1))) <+: (c :: (X' ++ Y)) := by
      refine ⟨Y.drop (pat.length - 1), ?_⟩
      show c :: (X' ++ Y.take (pat.length - 1) ++ Y.drop (pat.length - 1)) =
        c :: (X' ++ Y)
      rw [List.append_assoc, List.take_append_drop]
    have hlen : pat.length ≤ (c :: (X' ++ Y.take (pat.length - 1))).length := by
      have hlp := hpat.length_le
      simp only [List.length_cons, List.length_append, List.length_take] at hlp ⊢
      have h0 : 0 < pat.length := List.length_pos.mpr hne
      omega
    have hfin : pat <+: c :: (X' ++ Y.take (pat.length - 1)) :=
      List.prefix_of_prefix_length_le hpat hpre2 hlen
    exact hxP hfin.isInfix

/-- With no occurrence in the subject, the global-replace worker is the
identity, whatever the fuel and the consumed prefix. -/
theorem jsReplaceAllAux_no_match {pat rep : JStr} (n : Nat) {c B : JStr}
    (h : splitFirst pat B = none) :
    jsReplaceAllAux pat rep n c B = B := by
  cases n with
  | zero => rfl
  | succ m => simp [jsReplaceAllAux, splitFirstTR_nil, h]

/-- Global replace over a subject with exactly one (marked) occurrence. -/
theorem jsReplaceAll_single {pat A B rep : JStr} (hne : pat ≠ [])
    (hA : containsSub pat (A ++ pat.dropLast) = false)
    (hB : containsSub pat B = false) :
    jsReplaceAll (A ++ (pat ++ B)) pat rep =
      A ++ (getSubstitution pat A B rep ++ B) := by
  have hsplit : splitFirst pat (A ++ (pat ++ B)) = some (A, B) := splitFirst_chunk hne hA
  have hBn : splitFirst pat B = none := by
    apply splitFirst_eq_none_of_not_infix
    intro hocc
    rw [ containsSub_iff_infix.mpr hocc] at hB
    exact absurd hB (by decide)
  obtain ⟨n, hn⟩ : ∃ n, lenTR (A ++ (pat ++ B)) 0 = n + 1 := by
    rw [lenTR_eq]
    have h0 : 0 < pat.length := List.length_pos.mpr hne
    refine ⟨A.length + pat.length + B.length - 1, ?_⟩
    simp only [List.length_append]
    omega
  unfold jsReplaceAll
  rw [if_neg hne, hn]
  simp only [jsReplaceAllAux, splitFirstTR_nil, hsplit, List.nil_append]
  rw [jsReplaceAllAux_no_match n hBn]
  simp [List.append_assoc]

/-- Global replace over a subject with exactly one occurrence and a
dollar-free replacement: the replacement goes in verbatim. -/
theorem jsReplaceAll_single_nd {pat A B rep : JStr} (hne : pat ≠ [])
    (hd : '$' ∉ rep)
    (hA : containsSub pat (A ++ pat.dropLast) = false)
    (hB : containsSub pat B = false) :
    jsReplaceAll (A ++ (pat ++ B)) pat rep = A ++ (rep ++ B) := by
  rw [jsReplaceAll_single hne hA hB, getSubstitution_no_dollar hd]

/-- Global replace over a subject with exactly two (marked) occurrences and
a dollar-free replacement. -/
theorem jsReplaceAll_double_nd {pat A B C rep : JStr} (hne : pat ≠ [])
    (hd : '$' ∉ rep)
    (hA : containsSub pat (A ++ pat.dropLast) = false)
    (hB : containsSub pat (B ++ pat.dropLast) = false)
    (hC : containsSub pat C = false) :
    jsReplaceAll (A ++ (pat ++ (B ++ (pat ++ C)))) pat rep =
      A ++ (rep ++ (B ++ (rep ++ C))) := by
  have hsplit1 : splitFirst pat (A ++ (pat ++ (B ++ (pat ++ C)))) =
      some (A, B ++ (pat ++ C)) := splitFirst_chunk hne hA
  have hsplit2 : splitFirst pat (B ++ (pat ++ C)) = some (B, C) := splitFirst_chunk hne hB
  have hCn : splitFirst pat C = none := by
    apply splitFirst_eq_none_of_not_infix
    intro hocc
    rw [ containsSub_iff_infix.mpr hocc] at hC
    exact absurd hC (by decide)
  obtain ⟨n, hn⟩ : ∃ n, lenTR (A ++ (pat ++ (B ++ (pat ++ C)))) 0 = n + 2 := by
    rw [lenTR_eq]
    have h0 : 0 < pat.length := List.length_pos.mpr hne
    refine ⟨A.length + pat.length + B.length + pat.length + C.length - 2, ?_⟩
    simp only [List.length_append]
    omega
  unfold jsReplaceAll
  rw [if_neg hne, hn]
  simp only [jsReplaceAllAux, splitFirstTR_nil, hsplit1, hsplit2, List.nil_append]
  rw [jsReplaceAllAux_no_match n hCn]
  simp only [getSubstitution_no_dollar hd]
  simp [List.append_assoc]

/-- First 923 characters of the newsletter synthesis template, in chunk
form. -/
theorem nlTake923 :
    newsletterConfig.subredditAnalysisPrompt.take 923 =
      nlA0 ++ (str "{subreddit}" ++ (nlA1a ++ (str "{postCount}" ++ nlA1b1))) :=
  eqJ_iff.mp (by decide)

/-- Remaining characters of the newsletter synthesis template, in chunk
form. -/
theorem nlDrop923 :
    newsletterConfig.subredditAnalysisPrompt.drop 923 =
      nlA1b2 ++ (str "{subreddit}" ++ (nlA2a ++ (str "{postAnalyses}" ++ nlA2b))) :=
  eqJ_iff.mp (by decide)

/-- The newsletter synthesis template decomposes around its placeholder
occurrences into the literal chunks. -/
theorem nlTmpl_decomp :
    newsletterConfig.subredditAnalysisPrompt =
      nlA0 ++ (str "{subreddit}" ++
        ((nlA1a ++ (str "{postCount}" ++ (nlA1b1 ++ nlA1b2))) ++
          (str "{subreddit}" ++ (nlA2a ++ (str "{postAnalyses}" ++ nlA2b))))) := by
  calc newsletterConfig.subredditAnalysisPrompt
      = newsletterConfig.subredditAnalysisPrompt.take 923 ++
          newsletterConfig.subredditAnalysisPrompt.drop 923 :=
        (List.take_append_drop _ _).symm
    _ = _ := by
        rw [nlTake923, nlDrop923]
        simp [List.append_assoc]

/-- The first substitution of the Aggregator on the newsletter template, in
chunk form, for the group name `sub`. -/
theorem nlStep1_eval :
    jsReplaceAll newsletterConfig.subredditAnalysisPrompt (str "{subreddit}") (str "sub") =
      nlA0 ++ (str "sub" ++
        ((nlA1a ++ (str "{postCount}" ++ (nlA1b1 ++ nlA1b2))) ++
          (str "sub" ++ (nlA2a ++ (str "{postAnalyses}" ++ nlA2b))))) := by
  rw [nlTmpl_decomp]
  apply jsReplaceAll_double_nd
  · decide
  · decide
  · decide
  · have hsh : (nlA1a ++ (str "{postCount}" ++ (nlA1b1 ++ nlA1b2))) ++
        (str "{subreddit}").dropLast =
        (nlA1a ++ (str "{postCount}" ++ nlA1b1)) ++
          (nlA1b2 ++ (str "{subreddit}").dropLast) := by
      simp [List.append_assoc]
    rw [hsh]
    exact containsSub_append_false (by decide) (by decide) (by decide)
  · decide

/-- The second substitution of the Aggregator, in chunk form, for one
collected item. -/
theorem nlStep2_eval :
    jsReplaceAll
      (jsReplaceAll newsletterConfig.subredditAnalysisPrompt (str "{subreddit}") (str "sub"))
      (str "{postCount}") (natStr 1) =
    (nlA0 ++ (str "sub" ++ nlA1a)) ++ (natStr 1 ++
      ((nlA1b1 ++ nlA1b2) ++ (str "sub" ++ (nlA2a ++ (str "{postAnalyses}" ++ nlA2b))))) := by
  rw [nlStep1_eval]
  have hre : nlA0 ++ (str "sub" ++
        ((nlA1a ++ (str "{postCount}" ++ (nlA1b1 ++ nlA1b2))) ++
          (str "sub" ++ (nlA2a ++ (str "{postAnalyses}" ++ nlA2b))))) =
      (nlA0 ++ (str "sub" ++ nlA1a)) ++ (str "{postCount}" ++
        ((nlA1b1 ++ nlA1b2) ++ (str "sub" ++ (nlA2a ++ (str "{postAnalyses}" ++ nlA2b))))) := by
    simp [List.append_assoc]
  rw [hre]
  apply jsReplaceAll_single_nd
  · decide
  · decide
  · decide
  · have hsh : (nlA1b1 ++ nlA1b2) ++ (str "sub" ++ (nlA2a ++ (str "{postAnalyses}" ++ nlA2b))) =
        nlA1b1 ++ (nlA1b2 ++ (str "sub" ++ (nlA2a ++ (str "{postAnalyses}" ++ nlA2b)))) := by
      simp [List.append_assoc]
    rw [hsh]
    exact containsSub_append_false (by decide) (by decide) (by decide)

/-- The `{postAnalyses}` placeholder survives the two preceding
substitutions of the shipped newsletter template for a one-item group named
`sub`. -/
theorem nlPostAnalyses_survives :
    (str "{postAnalyses}") <:+:
      jsReplaceAll
        (jsReplaceAll newsletterConfig.subredditAnalysisPrompt (str "{subreddit}") (str "sub"))
        (str "{postCount}") (natStr 1) := by
  rw [nlStep2_eval]
  refine ⟨(nlA0 ++ (str "sub" ++ nlA1a)) ++
    (natStr 1 ++ ((nlA1b1 ++ nlA1b2) ++ (str "sub" ++ nlA2a))), nlA2b, ?_⟩
  simp [List.append_assoc]

/-- The synthesis prompt the Aggregator sends for the dollar-ampersand
fixture, in chunk form: GetSubstitution has rewritten the dollar sequence
inside the pasted block into the pattern text. -/
theorem nlPromptDollar_eval :
    saPrompt newsletterConfig (str "sub")
      (saCollect (postDirsOf { posts := [cxDollarPost], subredditAnalysis := none })) =
    ((nlA0 ++ (str "sub" ++ nlA1a)) ++ (natStr 1 ++ ((nlA1b1 ++ nlA1b2) ++ (str "sub" ++ nlA2a)))) ++
      (str "--- POST 1: T ---\nPost URL: L\n{postAnalyses}\n" ++ nlA2b) := by
  unfold saPrompt
  have hlen : (saCollect (postDirsOf
      { posts := [cxDollarPost], subredditAnalysis := none })).length = 1 := rfl
  rw [hlen, nlStep2_eval]
  have hre : (nlA0 ++ (str "sub" ++ nlA1a)) ++ (natStr 1 ++
        ((nlA1b1 ++ nlA1b2) ++ (str "sub" ++ (nlA2a ++ (str "{postAnalyses}" ++ nlA2b))))) =
      ((nlA0 ++ (str "sub" ++ nlA1a)) ++
          (natStr 1 ++ ((nlA1b1 ++ nlA1b2) ++ (str "sub" ++ nlA2a)))) ++
        (str "{postAnalyses}" ++ nlA2b) := by
    simp [List.append_assoc]
  rw [hre]
  rw [jsReplaceAll_single (by decide) ?hA ?hB]
  case hA =>
    have hsh : ((nlA0 ++ (str "sub" ++ nlA1a)) ++
          (natStr 1 ++ ((nlA1b1 ++ nlA1b2) ++ (str "sub" ++ nlA2a)))) ++
          (str "{postAnalyses}").dropLast =
        (nlA0 ++ (str "sub" ++ (nlA1a ++ (natStr 1 ++ nlA1b1)))) ++
          (nlA1b2 ++ (str "sub" ++ (nlA2a ++ (str "{postAnalyses}").dropLast))) := by
      simp [List.append_assoc]
    rw [hsh]
    exact containsSub_append_false (by decide) (by decide) (by decide)
  case hB => decide
  rw [show getSubstitution (str "{postAnalyses}")
      ((nlA0 ++ (str "sub" ++ nlA1a)) ++
        (natStr 1 ++ ((nlA1b1 ++ nlA1b2) ++ (str "sub" ++ nlA2a)))) nlA2b
      (saBlock (saCollect (postDirsOf
        { posts := [cxDollarPost], subredditAnalysis := none }))) =
      str "--- POST 1: T ---\nPost URL: L\n{postAnalyses}\n" from eqJ_iff.mp (by decide)]

/-- The prompt the Aggregator sends for the dollar-ampersand fixture holds
no dollar character at all. -/
theorem nlPromptDollar_no_dollar :
    '$' ∉ saPrompt newsletterConfig (str "sub")
      (saCollect (postDirsOf { posts := [cxDollarPost], subredditAnalysis := none })) := by
  rw [nlPromptDollar_eval]
  simp only [List.mem_append]
  decide

/-- Each config-designated exclusion sentinel does occur verbatim in the
per-item quality-gate prompt of its config. -/
theorem sentinel_mentioned_in_item_prompt :
    newsletterConfig.exclusionSentinel <:+: newsletterConfig.newsletterItemPrompt ∧
    academicConfig.exclusionSentinel <:+: academicConfig.newsletterItemPrompt := by
  constructor <;> exact containsSub_iff_infix.mp (by decide)

theorem lookupGroup_update_self {fs : FS} {s : JStr} {g g' : GroupDir}
    (h : lookupGroup fs s = some g) :
    lookupGroup (updateGroup fs s g') s = some g' := by
  induction fs with
  | nil => simp [lookupGroup] at h
  | cons kg rest ih =>
    obtain ⟨k, g₀⟩ := kg
    by_cases hk : k = s
    · simp [lookupGroup, updateGroup, hk]
    · simp only [lookupGroup, updateGroup, hk, if_false, if_neg hk] at h ⊢
      exact ih h

theorem lookupGroup_update_other {fs : FS} {s t : JStr} {g' : GroupDir}
    (h : t ≠ s) :
    lookupGroup (updateGroup fs s g') t = lookupGroup fs t := by
  induction fs with
  | nil => simp [updateGroup]
  | cons kg rest ih =>
    obtain ⟨k, g₀⟩ := kg
    by_cases hk : k = s
    · subst hk
      simp [lookupGroup, updateGroup, Ne.symm h]
    · simp only [updateGroup, if_neg hk, lookupGroup]
      by_cases hkt : k = t
      · simp [hkt]
      · simp [hkt, ih]

/-! ## Characterization lemmas for the Aggregator -/

theorem readAnalysisFiles_wrote_file {p : PostDir} {fc : JStr × JStr}
    (h : fc ∈ (readAnalysisFiles p).wrote) : fc.1 = str "analysis.md" := by
  unfold readAnalysisFiles at h
  cases hmd : p.analysisMd with
  | some t => simp [hmd] at h
  | none =>
    cases htxt : p.analysisTxt with
    | some t =>
      simp only [hmd, htxt, List.mem_singleton] at h
      rw [h]
    | none => simp [hmd, htxt] at h

theorem readPostStep_wrote_file {p : PostDir} {fc : JStr × JStr}
    (h : fc ∈ (readPostStep p).2.wrote) : fc.1 = str "analysis.md" := by
  unfold readPostStep at h
  cases hmd : p.metadata with
  | none => simp [hmd] at h
  | some md =>
    simp only [hmd] at h
    cases hf : (readAnalysisFiles p).found with
    | none =>
      simp only [hf] at h
      exact readAnalysisFiles_wrote_file h
    | some t =>
      simp only [hf] at h
      exact readAnalysisFiles_wrote_file h

/-- With both analysis files absent, the post loop finds nothing and leaves
the post directory untouched. -/
theorem readPostStep_no_analysis {p : PostDir}
    (hmd : p.analysisMd = none) (htxt : p.analysisTxt = none) :
    (readPostStep p).1 = none ∧ (readPostStep p).2.post = p ∧
      (readPostStep p).2.wrote = [] := by
  unfold readPostStep readAnalysisFiles
  cases hm : p.metadata <;> simp [hmd, htxt]

/-- Every write the Aggregator performs is to a file named `analysis.md` or
`subreddit_analysis.md`; with `reportConfig` undefined (or with no valid
analyses) the `subreddit_analysis.md` write is never reached. -/
theorem genSA_writes_file {subreddit runDir : JStr} {fs : FS}
    {cfg? : Option ReportConfig} {llm : JStr → Except JStr JStr} {w : FsWrite}
    (h : w ∈ (generateSubredditAnalysis subreddit runDir fs cfg? llm).writes) :
    w.file = str "analysis.md" ∨ w.file = str "subreddit_analysis.md" := by
  unfold generateSubredditAnalysis at h
  cases hlg : lookupGroup fs subreddit with
  | none => simp [hlg] at h
  | some g =>
    simp only [hlg] at h
    by_cases hpd : postDirsOf g = []
    · simp [hpd] at h
    · simp only [if_neg hpd] at h
      have hmig : ∀ w' : FsWrite,
          w' ∈ (postDirsOf g).flatMap (fun p =>
            ((readPostStep p).2.wrote).map
              (fun fc => FsWrite.mk [runDir, subreddit, p.name] fc.1 fc.2)) →
          w'.file = str "analysis.md" := by
        intro w' hw'
        rw [List.mem_flatMap] at hw'
        obtain ⟨p, _, hw'⟩ := hw'
        rw [List.mem_map] at hw'
        obtain ⟨fc, hfc, hmk⟩ := hw'
        rw [← hmk]
        exact readPostStep_wrote_file hfc
      by_cases hit : saCollect (postDirsOf g) = []
      · simp only [hit, if_pos, List.isEmpty_nil] at h
        exact Or.inl (hmig w h)
      · rw [if_neg hit] at h
        cases cfg? with
        | none => exact Or.inl (hmig w h)
        | some cfg =>
          cases hllm : llm (saPrompt cfg subreddit (saCollect (postDirsOf g))) with
          | error e =>
            simp only [hllm] at h
            exact Or.inl (hmig w h)
          | ok analysis =>
            simp only [hllm, List.mem_append, List.mem_singleton] at h
            rcases h with h | h
            · exact Or.inl (hmig w h)
            · rw [h]
              exact Or.inr rfl

/-- Updating a group without touching its `subredditAnalysis` leaves every
`subreddit_analysis.md` lookup unchanged. -/
theorem lookupAnalysis_update_posts {fs : FS} {s : JStr} {g : GroupDir}
    (hlg : lookupGroup fs s = some g) (posts' : List PostDir) (t : JStr) :
    lookupAnalysis (updateGroup fs s { g with posts := posts' }) t =
      lookupAnalysis fs t := by
  unfold lookupAnalysis
  by_cases hts : t = s
  · subst hts
    rw [lookupGroup_update_self hlg, hlg]
    rfl
  · rw [lookupGroup_update_other hts]

theorem errSA_starts_error (msg : JStr) : str "Error" <+: errSA msg := by
  have h1 : str "Error" <+: str "Error generating subreddit analysis: " := by decide
  exact h1.trans (List.prefix_append _ _)

theorem errCN_starts_error (msg : JStr) : str "Error" <+: errCN msg := by
  have h1 : str "Error" <+: str "Error generating topic-based digest: " := by decide
  exact h1.trans (List.prefix_append _ _)

theorem errGN_starts_error (msg : JStr) : str "Error" <+: errGN msg := by
  have h1 : str "Error" <+: str "Error generating newsletter: " := by decide
  exact h1.trans (List.prefix_append _ _)

/-- With the `reportConfig` argument omitted (`undefined`), as in the
on-demand regeneration by the Composer, the Aggregator never reaches the model
call. -/
theorem genSA_undefined_prompts (subreddit runDir : JStr) (fs : FS)
    (llm : JStr → Except JStr JStr) :
    (generateSubredditAnalysis subreddit runDir fs none llm).prompts = [] := by
  cases hlg : lookupGroup fs subreddit with
  | none =>
    simp only [generateSubredditAnalysis, hlg]
  | some g =>
    simp only [generateSubredditAnalysis, hlg]
    by_cases hpd : postDirsOf g = []
    · rw [if_pos hpd]
    · rw [if_neg hpd]
      by_cases hit : saCollect (postDirsOf g) = []
      · rw [if_pos hit]
      · rw [if_neg hit]

/-- With the `reportConfig` argument omitted the Aggregator always returns
an in-band error string. -/
theorem genSA_undefined_result (subreddit runDir : JStr) (fs : FS)
    (llm : JStr → Except JStr JStr) :
    (str "Error") <+: (generateSubredditAnalysis subreddit runDir fs none llm).result := by
  cases hlg : lookupGroup fs subreddit with
  | none =>
    simp only [generateSubredditAnalysis, hlg]
    exact errSA_starts_error _
  | some g =>
    simp only [generateSubredditAnalysis, hlg]
    by_cases hpd : postDirsOf g = []
    · rw [if_pos hpd]
      exact errSA_starts_error _
    · rw [if_neg hpd]
      by_cases hit : saCollect (postDirsOf g) = []
      · rw [if_pos hit]
        exact errSA_starts_error _
      · rw [if_neg hit]
        exact errSA_starts_error _

/-- With the `reportConfig` argument omitted the Aggregator writes no
`subreddit_analysis.md` of any group: every analysis lookup is as before. -/
theorem genSA_undefined_lookupAnalysis (subreddit runDir : JStr) (fs : FS)
    (llm : JStr → Except JStr JStr) (t : JStr) :
    lookupAnalysis (generateSubredditAnalysis subreddit runDir fs none llm).fs t =
      lookupAnalysis fs t := by
  cases hlg : lookupGroup fs subreddit with
  | none =>
    simp only [generateSubredditAnalysis, hlg]
  | some g =>
    simp only [generateSubredditAnalysis, hlg]
    by_cases hpd : postDirsOf g = []
    · rw [if_pos hpd]
    · rw [if_neg hpd]
      by_cases hit : saCollect (postDirsOf g) = []
      · rw [if_pos hit]
        exact lookupAnalysis_update_posts hlg _ t
      · rw [if_neg hit]
        exact lookupAnalysis_update_posts hlg _ t

theorem filterMap_congr_mem {α β : Type} {f g : α → Option β} :
    ∀ {l : List α}, (∀ a ∈ l, f a = g a) → l.filterMap f = l.filterMap g := by
  intro l
  induction l with
  | nil => intro _; rfl
  | cons a l ih =>
    intro h
    simp only [List.filterMap_cons, h a (List.mem_cons_self a l),
      ih (fun x hx => h x (List.mem_cons_of_mem a hx))]

/-- What the per-subreddit loop of the Composer computes: one on-demand
attempt for exactly the subreddits whose analysis is missing (in order),
the included pairs are exactly the subreddits whose analysis exists, and no
`subreddit_analysis.md` of any group is created or destroyed by the loop. -/
theorem cnLoop_spec (runDir : JStr) (llm : JStr → Except JStr JStr) :
    ∀ (subs : List JStr) (fs : FS),
    (cnLoop runDir llm subs fs).attempts =
      subs.filter (fun s => (lookupAnalysis fs s).isNone) ∧
    (cnLoop runDir llm subs fs).included =
      subs.filterMap (fun s => (lookupAnalysis fs s).map (fun a => (s, a))) ∧
    (∀ t, lookupAnalysis (cnLoop runDir llm subs fs).fs t = lookupAnalysis fs t) := by
  intro subs
  induction subs with
  | nil => exact fun fs => ⟨rfl, rfl, fun t => rfl⟩
  | cons s ss ih =>
    intro fs
    cases hla : lookupAnalysis fs s with
    | some a =>
      obtain ⟨h1, h2, h3⟩ := ih fs
      simp only [cnLoop, hla]
      refine ⟨?_, ?_, fun t => h3 t⟩
      · rw [h1, List.filter_cons_of_neg]
        simp [hla]
      · rw [h2, List.filterMap_cons]
        simp [hla]
    | none =>
      have hinv : ∀ t,
          lookupAnalysis (generateSubredditAnalysis s runDir fs none llm).fs t =
            lookupAnalysis fs t :=
        genSA_undefined_lookupAnalysis s runDir fs llm
      have hstill : lookupAnalysis (generateSubredditAnalysis s runDir fs none llm).fs s = none :=
        (hinv s).trans hla
      obtain ⟨h1, h2, h3⟩ := ih (generateSubredditAnalysis s runDir fs none llm).fs
      simp only [cnLoop, hla, hstill]
      refine ⟨?_, ?_, fun t => ((h3 t).trans (hinv t))⟩
      · have hcong :
            List.filter
              (fun x => (lookupAnalysis (generateSubredditAnalysis s runDir fs none llm).fs x).isNone) ss =
            List.filter (fun x => (lookupAnalysis fs x).isNone) ss :=
          List.filter_congr (fun x _ => by rw [hinv x])
        rw [h1, hcong, List.filter_cons_of_pos]
        simp [hla]
      · rw [h2, filterMap_congr_mem (fun x _ => by rw [hinv x]), List.filterMap_cons]
        simp [hla]

theorem countOcc_eq_zero {s : JStr} : ∀ {l : List JStr}, s ∉ l → countOcc s l = 0 := by
  intro l
  induction l with
  | nil => intro _; rfl
  | cons x xs ih =>
    intro h
    have hxs : x ≠ s := fun he => h (he ▸ List.mem_cons_self x xs)
    simp only [countOcc, if_neg hxs, Nat.zero_add]
    exact ih (fun hm => h (List.mem_cons_of_mem x hm))

theorem countOcc_eq_one {s : JStr} : ∀ {l : List JStr}, l.Nodup → s ∈ l → countOcc s l = 1 := by
  intro l
  induction l with
  | nil => intro _ h; cases h
  | cons x xs ih =>
    intro hnd hs
    rw [List.nodup_cons] at hnd
    by_cases hxs : x = s
    · subst hxs
      simp only [countOcc, if_pos rfl]
      rw [countOcc_eq_zero hnd.1]
      simp
    · have hs' : s ∈ xs := by
        cases List.mem_cons.mp hs with
        | inl h => exact absurd h.symm hxs
        | inr h => exact h
      simp only [countOcc, if_neg hxs, Nat.zero_add]
      exact ih hnd.2 hs'

theorem countOcc_filter {p : JStr → Bool} {s : JStr} (hp : p s = true) :
    ∀ {l : List JStr}, countOcc s (l.filter p) = countOcc s l := by
  intro l
  induction l with
  | nil => rfl
  | cons x xs ih =>
    by_cases hxs : x = s
    · subst hxs
      rw [List.filter_cons_of_pos hp]
      simp only [countOcc, if_pos rfl, ih]
    · cases hpx : p x with
      | true =>
        rw [List.filter_cons_of_pos hpx]
        simp only [countOcc, if_neg hxs, ih]
      | false =>
        rw [List.filter_cons_of_neg (by rw [hpx]; exact Bool.false_ne_true)]
        simp only [countOcc, if_neg hxs, Nat.zero_add, ih]

/-- Every branch of the Composer passes the `attempts`, `included` and
filesystem of the loop through to its output unchanged. -/
theorem genCN_fields (recipient : Option JStr) (subs : List JStr) (runDir : JStr)
    (fs : FS) (cfg : ReportConfig) (date : JStr) (llm : JStr → Except JStr JStr) :
    (generateCombinedNewsletter recipient subs runDir fs cfg date llm).attempts =
      (cnLoop runDir llm subs fs).attempts ∧
    (generateCombinedNewsletter recipient subs runDir fs cfg date llm).included =
      (cnLoop runDir llm subs fs).included ∧
    (generateCombinedNewsletter recipient subs runDir fs cfg date llm).fs =
      (cnLoop runDir llm subs fs).fs := by
  simp only [generateCombinedNewsletter]
  by_cases h : (cnLoop runDir llm subs fs).included.isEmpty
  · rw [if_pos h]
    exact ⟨rfl, rfl, rfl⟩
  · rw [if_neg h]
    cases hllm : llm (cnPrompt cfg (cnLoop runDir llm subs fs).included) with
    | error e => exact ⟨rfl, rfl, rfl⟩
    | ok body => exact ⟨rfl, rfl, rfl⟩

/-- When the loop collected nothing, the Composer errors in-band and writes
no digest file. -/
theorem genCN_empty (recipient : Option JStr) (subs : List JStr) (runDir : JStr)
    (fs : FS) (cfg : ReportConfig) (date : JStr) (llm : JStr → Except JStr JStr)
    (h : (cnLoop runDir llm subs fs).included = []) :
    (generateCombinedNewsletter recipient subs runDir fs cfg date llm).result =
      errCN (str "No valid subreddit analyses found") ∧
    (generateCombinedNewsletter recipient subs runDir fs cfg date llm).digestWrite = none := by
  simp only [generateCombinedNewsletter]
  rw [if_pos (by rw [h]; rfl)]
  exact ⟨rfl, rfl⟩

/-- C3 (error_handling): for every run, a Group whose `subreddit_analysis.md`
is missing when the Composer starts gets exactly one on-demand generation
attempt; a Group whose analysis is still missing afterwards is skipped while
composition proceeds with every Group whose analysis exists; and when zero
Groups remain the whole operation returns an in-band error string and writes
no digest file. -/
theorem spec_C3 (recipient : Option JStr) (subs : List JStr) (runDir : JStr)
    (fs : FS) (cfg : ReportConfig) (date : JStr) (llm : JStr → Except JStr JStr)
    (hnd : subs.Nodup) :
    (∀ s ∈ subs, lookupAnalysis fs s = none →
      countOcc s (generateCombinedNewsletter recipient subs runDir fs cfg date llm).attempts = 1) ∧
    (∀ s ∈ subs, lookupAnalysis fs s = none →
      lookupAnalysis (generateCombinedNewsletter recipient subs runDir fs cfg date llm).fs s = none →
      s ∉ (generateCombinedNewsletter recipient subs runDir fs cfg date llm).included.map Prod.fst) ∧
    (∀ s a, s ∈ subs → lookupAnalysis fs s = some a →
      (s, a) ∈ (generateCombinedNewsletter recipient subs runDir fs cfg date llm).included) ∧
    ((generateCombinedNewsletter recipient subs runDir fs cfg date llm).included = [] →
      (str "Error") <+:
        (generateCombinedNewsletter recipient subs runDir fs cfg date llm).result ∧
      (generateCombinedNewsletter recipient subs runDir fs cfg date llm).digestWrite = none) := by
  obtain ⟨hat, hinc, hfs⟩ := genCN_fields recipient subs runDir fs cfg date llm
  obtain ⟨lat, linc, lfs⟩ := cnLoop_spec runDir llm subs fs
  refine ⟨?_, ?_, ?_, ?_⟩
  · intro s hs hla
    rw [hat, lat, countOcc_filter (by simp [hla])]
    exact countOcc_eq_one hnd hs
  · intro s hs hla _ hmem
    rw [hinc, linc] at hmem
    rw [List.mem_map] at hmem
    obtain ⟨⟨x, a⟩, hpair, hfst⟩ := hmem
    rw [List.mem_filterMap] at hpair
    obtain ⟨y, _, hy⟩ := hpair
    cases hly : lookupAnalysis fs y with
    | none => rw [hly] at hy; exact Option.noConfusion hy
    | some b =>
      rw [hly] at hy
      simp at hy
      obtain ⟨hyx, -⟩ := hy
      have hxs : x = s := hfst
      rw [hyx, hxs, hla] at hly
      exact Option.noConfusion hly
  · intro s a hs hla
    rw [hinc, linc, List.mem_filterMap]
    exact ⟨s, hs, by simp [hla]⟩
  · intro hempty
    rw [hinc, linc] at hempty
    obtain ⟨h1, h2⟩ := genCN_empty recipient subs runDir fs cfg date llm
      (by rw [linc, hempty])
    rw [h1]
    exact ⟨errCN_starts_error _, h2⟩

/-- With the `reportConfig` argument omitted, every write the Aggregator
performs is a legacy-migration write of the `analysis.md` of some post —
never a
`subreddit_analysis.md`. -/
theorem genSA_undefined_writes (subreddit runDir : JStr) (fs : FS)
    (llm : JStr → Except JStr JStr) :
    ∀ w ∈ (generateSubredditAnalysis subreddit runDir fs none llm).writes,
      w.file = str "analysis.md" := by
  intro w hw
  cases genSA_writes_file hw with
  | inl h => exact h
  | inr h =>
    exfalso
    cases hlg : lookupGroup fs subreddit with
    | none =>
      simp only [generateSubredditAnalysis, hlg] at hw
      exact absurd hw (List.not_mem_nil w)
    | some g =>
      simp only [generateSubredditAnalysis, hlg] at hw
      by_cases hpd : postDirsOf g = []
      · rw [if_pos hpd] at hw
        exact absurd hw (List.not_mem_nil w)
      · rw [if_neg hpd] at hw
        have hmig : w.file = str "analysis.md" := by
          by_cases hit : saCollect (postDirsOf g) = []
          · rw [if_pos hit] at hw
            rw [List.mem_flatMap] at hw
            obtain ⟨p, _, hw⟩ := hw
            rw [List.mem_map] at hw
            obtain ⟨fc, hfc, hmk⟩ := hw
            rw [← hmk]
            exact readPostStep_wrote_file hfc
          · rw [if_neg hit] at hw
            rw [List.mem_flatMap] at hw
            obtain ⟨p, _, hw⟩ := hw
            rw [List.mem_map] at hw
            obtain ⟨fc, hfc, hmk⟩ := hw
            rw [← hmk]
            exact readPostStep_wrote_file hfc
        rw [hmig] at h
        exact absurd h (by decide)

/-- C4 (implicit, error_handling): the on-demand regeneration by the
Composer calls `generateSubredditAnalysis` without the `reportConfig` argument; with
`reportConfig` undefined that call makes no model call, never writes a
`subreddit_analysis.md`, leaves every analysis lookup unchanged, and returns
an in-band error string — hence every Group whose `subreddit_analysis.md` is
absent when the Composer starts is skipped and contributes nothing to the
Digest.  (Amended: the raise happens before the model call and before any
GroupAnalysis write, but a legacy `analysis.txt` → `analysis.md` migration
write may already have happened, see `spec_C4_counterexample`.) -/
theorem spec_C4 :
    (∀ (subreddit runDir : JStr) (fs : FS) (llm : JStr → Except JStr JStr),
      (generateSubredditAnalysis subreddit runDir fs none llm).prompts = [] ∧
      (str "Error") <+: (generateSubredditAnalysis subreddit runDir fs none llm).result ∧
      (∀ w ∈ (generateSubredditAnalysis subreddit runDir fs none llm).writes,
        w.file ≠ str "subreddit_analysis.md") ∧
      (∀ t, lookupAnalysis (generateSubredditAnalysis subreddit runDir fs none llm).fs t =
        lookupAnalysis fs t)) ∧
    (∀ (recipient : Option JStr) (subs : List JStr) (runDir : JStr) (fs : FS)
      (cfg : ReportConfig) (date : JStr) (llm : JStr → Except JStr JStr) (s : JStr),
      s ∈ subs → lookupAnalysis fs s = none →
      s ∉ (generateCombinedNewsletter recipient subs runDir fs cfg date llm).included.map Prod.fst) := by
  constructor
  · intro subreddit runDir fs llm
    refine ⟨genSA_undefined_prompts _ _ _ _, genSA_undefined_result _ _ _ _, ?_,
      genSA_undefined_lookupAnalysis _ _ _ _⟩
    intro w hw
    rw [genSA_undefined_writes subreddit runDir fs llm w hw]
    decide
  · intro recipient subs runDir fs cfg date llm s hs hla hmem
    obtain ⟨-, hinc, -⟩ := genCN_fields recipient subs runDir fs cfg date llm
    obtain ⟨-, linc, -⟩ := cnLoop_spec runDir llm subs fs
    rw [hinc, linc] at hmem
    rw [List.mem_map] at hmem
    obtain ⟨⟨x, a⟩, hpair, hfst⟩ := hmem
    rw [List.mem_filterMap] at hpair
    obtain ⟨y, _, hy⟩ := hpair
    cases hly : lookupAnalysis fs y with
    | none => rw [hly] at hy; exact Option.noConfusion hy
    | some b =>
      rw [hly] at hy
      simp at hy
      obtain ⟨hyx, -⟩ := hy
      have hxs : x = s := hfst
      rw [hyx, hxs, hla] at hly
      exact Option.noConfusion hly

/-- C4 counterexample: calling the Aggregator with `reportConfig` undefined
on a group holding a legacy `analysis.txt` performs a file write (the
`analysis.txt` → `analysis.md` migration) *before* raising, so the claim
"raises internally before any model call or file write" is false as stated:
here the call makes no model call and returns an error string, yet its write
log is nonempty. -/
theorem spec_C4_counterexample :
    (generateSubredditAnalysis (str "a") (str "run") cxMigFS none cxLLM).prompts = [] ∧
    (str "Error") <+: (generateSubredditAnalysis (str "a") (str "run") cxMigFS none cxLLM).result ∧
    (generateSubredditAnalysis (str "a") (str "run") cxMigFS none cxLLM).writes ≠ [] := by
  refine ⟨by decide, ?_, by decide⟩
  exact List.isPrefixOf_iff_prefix.mp (by decide)

/-- Auxiliary form of C6 with a propositional hypothesis. -/
theorem genSA_no_analyses (subreddit runDir : JStr) (fs : FS) (cfg? : Option ReportConfig)
    (llm : JStr → Except JStr JStr)
    (h : ∀ g, lookupGroup fs subreddit = some g →
      ∀ p ∈ postDirsOf g, p.analysisMd = none ∧ p.analysisTxt = none) :
    (str "Error") <+: (generateSubredditAnalysis subreddit runDir fs cfg? llm).result ∧
    (generateSubredditAnalysis subreddit runDir fs cfg? llm).writes = [] ∧
    (generateSubredditAnalysis subreddit runDir fs cfg? llm).prompts = [] ∧
    (∀ t, lookupAnalysis (generateSubredditAnalysis subreddit runDir fs cfg? llm).fs t =
      lookupAnalysis fs t) := by
  cases hlg : lookupGroup fs subreddit with
  | none =>
    refine ⟨?_, ?_, ?_, fun t => ?_⟩ <;> simp only [generateSubredditAnalysis, hlg]
    exact errSA_starts_error _
  | some g =>
    have hg := h g hlg
    by_cases hpd : postDirsOf g = []
    · refine ⟨?_, ?_, ?_, fun t => ?_⟩ <;>
        simp only [generateSubredditAnalysis, hlg] <;> rw [if_pos hpd]
      exact errSA_starts_error _
    · have hit : saCollect (postDirsOf g) = [] := by
        unfold saCollect
        rw [List.filterMap_eq_nil_iff]
        intro p hp
        exact (readPostStep_no_analysis (hg p hp).1 (hg p hp).2).1
      refine ⟨?_, ?_, ?_, fun t => ?_⟩ <;>
        simp only [generateSubredditAnalysis, hlg] <;> rw [if_neg hpd, if_pos hit]
      · exact errSA_starts_error _
      · rw [List.eq_nil_iff_forall_not_mem]
        intro w hw
        rw [List.mem_flatMap] at hw
        obtain ⟨p, hp, hw⟩ := hw
        rw [List.mem_map] at hw
        obtain ⟨fc, hfc, -⟩ := hw
        rw [(readPostStep_no_analysis (hg p hp).1 (hg p hp).2).2.2] at hfc
        exact absurd hfc (List.not_mem_nil fc)
      · exact lookupAnalysis_update_posts hlg _ t

/-- C7 (functional_correctness): for a post directory holding a legacy
`analysis.txt` and no `analysis.md`, the reader of the Aggregator yields the
legacy text, leaves an `analysis.md` with identical content, deletes the
`analysis.txt`, and a second run on the resulting state reads the same text
while writing and deleting nothing — the migration is idempotent. -/
theorem spec_C7 (p : PostDir) (t : JStr)
    (hmd : p.analysisMd = none) (htxt : p.analysisTxt = some t) :
    (readAnalysisFiles p).found = some t ∧
    (readAnalysisFiles p).post.analysisMd = some t ∧
    (readAnalysisFiles p).post.analysisTxt = none ∧
    (readAnalysisFiles p).wrote = [(str "analysis.md", t)] ∧
    (readAnalysisFiles p).removed = [str "analysis.txt"] ∧
    (readAnalysisFiles (readAnalysisFiles p).post).found = some t ∧
    (readAnalysisFiles (readAnalysisFiles p).post).post = (readAnalysisFiles p).post ∧
    (readAnalysisFiles (readAnalysisFiles p).post).wrote = [] ∧
    (readAnalysisFiles (readAnalysisFiles p).post).removed = [] := by
  simp [readAnalysisFiles, hmd, htxt]

/-- C9 (error_handling): neither stage function lets a failure escape: each
run of `generateSubredditAnalysis` or `generateCombinedNewsletter` returns
either the model product for the one prompt it sent, or an in-band string
beginning with `"Error"`. -/
theorem spec_C9 :
    (∀ (subreddit runDir : JStr) (fs : FS) (cfg? : Option ReportConfig)
      (llm : JStr → Except JStr JStr),
      (str "Error") <+: (generateSubredditAnalysis subreddit runDir fs cfg? llm).result ∨
      ∃ p, (generateSubredditAnalysis subreddit runDir fs cfg? llm).prompts = [p] ∧
        llm p = Except.ok (generateSubredditAnalysis subreddit runDir fs cfg? llm).result) ∧
    (∀ (recipient : Option JStr) (subs : List JStr) (runDir : JStr) (fs : FS)
      (cfg : ReportConfig) (date : JStr) (llm : JStr → Except JStr JStr),
      (str "Error") <+: (generateCombinedNewsletter recipient subs runDir fs cfg date llm).result ∨
      ∃ p body, (generateCombinedNewsletter recipient subs runDir fs cfg date llm).prompts = [p] ∧
        llm p = Except.ok body ∧
        (generateCombinedNewsletter recipient subs runDir fs cfg date llm).result =
          cnIntro cfg recipient date ++ body ++ cfg.combinedNewsletterFooter) := by
  constructor
  · intro subreddit runDir fs cfg? llm
    cases hlg : lookupGroup fs subreddit with
    | none =>
      left
      simp only [generateSubredditAnalysis, hlg]
      exact errSA_starts_error _
    | some g =>
      by_cases hpd : postDirsOf g = []
      · left
        simp only [generateSubredditAnalysis, hlg]
        rw [if_pos hpd]
        exact errSA_starts_error _
      · by_cases hit : saCollect (postDirsOf g) = []
        · left
          simp only [generateSubredditAnalysis, hlg]
          rw [if_neg hpd, if_pos hit]
          exact errSA_starts_error _
        · cases cfg? with
          | none =>
            left
            simp only [generateSubredditAnalysis, hlg]
            rw [if_neg hpd, if_neg hit]
            exact errSA_starts_error _
          | some cfg =>
            cases hllm : llm (saPrompt cfg subreddit (saCollect (postDirsOf g))) with
            | error e =>
              left
              simp only [generateSubredditAnalysis, hlg, hllm]
              rw [if_neg hpd, if_neg hit]
              exact errSA_starts_error _
            | ok analysis =>
              right
              refine ⟨saPrompt cfg subreddit (saCollect (postDirsOf g)), ?_, ?_⟩
              · simp only [generateSubredditAnalysis, hlg, hllm]
                rw [if_neg hpd, if_neg hit]
              · simp only [generateSubredditAnalysis, hlg, hllm]
                rw [if_neg hpd, if_neg hit]
  · intro recipient subs runDir fs cfg date llm
    by_cases hemp : (cnLoop runDir llm subs fs).included.isEmpty
    · left
      simp only [generateCombinedNewsletter]
      rw [if_pos hemp]
      exact errCN_starts_error _
    · cases hllm : llm (cnPrompt cfg (cnLoop runDir llm subs fs).included) with
      | error e =>
        left
        simp only [generateCombinedNewsletter, hllm]
        rw [if_neg hemp]
        exact errCN_starts_error _
      | ok body =>
        right
        refine ⟨cnPrompt cfg (cnLoop runDir llm subs fs).included, body, ?_, hllm, ?_⟩
        · simp only [generateCombinedNewsletter, hllm]
          rw [if_neg hemp]
        · simp only [generateCombinedNewsletter, hllm]
          rw [if_neg hemp]

/-- When every model response for the items of the Group trims to the literal
`"LOW_VALUE_CONTENT"`, the post loop accumulates an empty body. -/
theorem gnLoop_all_sentinel (cfg : ReportConfig) (llm : JStr → Except JStr JStr) :
    ∀ ps : List PostDir,
    (∀ p ∈ ps, ∀ md t, p.metadata = some md → gnReadAnalysis p = some t →
      ∃ r, llm (gnItemPrompt cfg md t) = Except.ok r ∧
        jsTrim r = str "LOW_VALUE_CONTENT") →
    (gnLoop cfg llm ps).2 = Except.ok [] := by
  intro ps
  induction ps with
  | nil => intro _; rfl
  | cons p ps ih =>
    intro h
    have hrest := fun q hq => h q (List.mem_cons_of_mem p hq)
    cases hmd : p.metadata with
    | none =>
      simp only [gnLoop, hmd]
      exact ih hrest
    | some md =>
      cases hra : gnReadAnalysis p with
      | none =>
        simp only [gnLoop, hmd, hra]
        exact ih hrest
      | some t =>
        obtain ⟨r, hok, htrim⟩ := h p (List.mem_cons_self p ps) md t hmd hra
        simp only [gnLoop, hmd, hra, hok]
        rw [ih hrest]
        simp only [htrim, if_pos, List.nil_append]
        rfl

/-- C2 (functional_correctness), amended: for a Group with at least one post
directory and a ReportConfig whose designated exclusion sentinel is the
literal `"LOW_VALUE_CONTENT"` (the only sentinel `generateNewsletter`
checks, line 2003), if the per-item quality-gate call returns that sentinel
(after trimming) for every item, the produced Digest is exactly the
instantiated intro followed by the instantiated footer, with an empty body
in between.  For a config designating any other sentinel the claim fails:
see `spec_C2_counterexample`. -/
theorem spec_C2 (recipient : Option JStr) (subreddit runDir : JStr) (fs : FS)
    (cfg : ReportConfig) (date : JStr) (llm : JStr → Except JStr JStr)
    (g : GroupDir)
    (hg : lookupGroup fs subreddit = some g)
    (hne : postDirsOf g ≠ [])
    (hsent : cfg.exclusionSentinel = str "LOW_VALUE_CONTENT")
    (hllm : ∀ p ∈ g.posts, ∀ md t, p.metadata = some md → gnReadAnalysis p = some t →
      ∃ r, llm (gnItemPrompt cfg md t) = Except.ok r ∧
        jsTrim r = cfg.exclusionSentinel) :
    (generateNewsletter recipient subreddit runDir fs cfg date llm).result =
      gnIntro cfg recipient subreddit date ++ gnFooter cfg subreddit := by
  have hllm' : ∀ p ∈ postDirsOf g, ∀ md t, p.metadata = some md →
      gnReadAnalysis p = some t →
      ∃ r, llm (gnItemPrompt cfg md t) = Except.ok r ∧
        jsTrim r = str "LOW_VALUE_CONTENT" := by
    intro p hp md t h1 h2
    obtain ⟨r, hok, htr⟩ := hllm p (List.mem_filter.mp hp).1 md t h1 h2
    exact ⟨r, hok, htr.trans hsent⟩
  have hloop := gnLoop_all_sentinel cfg llm (postDirsOf g) hllm'
  have hne' : (postDirsOf g).isEmpty = false := List.isEmpty_eq_false.mpr hne
  cases hgl : gnLoop cfg llm (postDirsOf g) with
  | mk prompts bodyE =>
    have hbody : bodyE = Except.ok [] := by
      rw [← hloop, hgl]
    subst hbody
    simp only [generateNewsletter, hg, hgl]
    rw [if_neg (by rw [hne']; exact Bool.false_ne_true)]
    simp

/-- C2 counterexample: with the academic config, whose designated exclusion
sentinel is `"EXCLUDED_FROM_REVIEW"`, a run in which the quality-gate call
returns exactly that sentinel for the single item of the Group does *not*
produce
`intro ++ footer`: `generateNewsletter` compares the response against the
literal `"LOW_VALUE_CONTENT"` only (line 2003), so the sentinel text itself
is pasted into the Digest body. -/
theorem spec_C2_counterexample :
    jsTrim (str "EXCLUDED_FROM_REVIEW") = academicConfig.exclusionSentinel ∧
    (generateNewsletter none (str "sub") (str "run") cxAcadFS academicConfig
        (str "D") cxAcadLLM).result ≠
      gnIntro academicConfig none (str "sub") (str "D") ++
        gnFooter academicConfig (str "sub") := by
  constructor
  · decide
  · decide

/-! ## C5: the tagged sections of the synthesis prompt -/

theorem readPostStep_found {p : PostDir} {md : Metadata}
    (hmd : p.metadata = some md)
    (ha : p.analysisMd.isSome ∨ p.analysisTxt.isSome) :
    ∃ t, (readPostStep p).1 = some (md, t) := by
  unfold readPostStep readAnalysisFiles
  cases hm : p.analysisMd with
  | some t => exact ⟨t, by simp [hmd, hm]⟩
  | none =>
    cases ht : p.analysisTxt with
    | some t => exact ⟨t, by simp [hmd, hm, ht]⟩
    | none =>
      rw [hm, ht] at ha
      rcases ha with ha | ha <;> exact absurd ha (by simp)

/-- When every post directory has both a metadata file and a persisted
analysis, the collected `postAnalyses` array has one entry per post
directory, and the `i`-th entry carries the metadata of the `i`-th post, in
directory-listing order. -/
theorem saCollect_of_complete :
    ∀ (ps : List PostDir),
    (∀ p ∈ ps, p.metadata.isSome ∧ (p.analysisMd.isSome ∨ p.analysisTxt.isSome)) →
    (saCollect ps).length = ps.length ∧
    (∀ i, i < ps.length → ∃ p md t, ps[i]? = some p ∧ p.metadata = some md ∧
      (saCollect ps)[i]? = some (md, t)) := by
  intro ps
  induction ps with
  | nil => exact fun _ => ⟨rfl, fun i hi => absurd hi (Nat.not_lt_zero i)⟩
  | cons p ps ih =>
    intro h
    obtain ⟨hmds, ha⟩ := h p (List.mem_cons_self p ps)
    obtain ⟨md, hmd⟩ := Option.isSome_iff_exists.mp hmds
    obtain ⟨t, hstep⟩ := readPostStep_found hmd ha
    obtain ⟨ihlen, ihget⟩ := ih (fun q hq => h q (List.mem_cons_of_mem p hq))
    have hcons : saCollect (p :: ps) = (md, t) :: saCollect ps := by
      unfold saCollect
      rw [List.filterMap_cons, hstep]
    constructor
    · rw [hcons]
      simp [ihlen]
    · intro i hi
      cases i with
      | zero =>
        exact ⟨p, md, t, List.getElem?_cons_zero, hmd, by
          rw [hcons, List.getElem?_cons_zero]⟩
      | succ j =>
        obtain ⟨q, md', t', h1, h2, h3⟩ := ihget j (Nat.lt_of_succ_lt_succ hi)
        refine ⟨q, md', t', ?_, h2, ?_⟩
        · rw [List.getElem?_cons_succ]
          exact h1
        · rw [hcons, List.getElem?_cons_succ]
          exact h3

theorem saSections_getElem (items : List (Metadata × JStr)) (i : Nat) :
    (saSections items)[i]? =
      (items[i]?).map (fun e => mkPostSection (i + 1) e.1.title e.1.link e.2) := by
  simp only [saSections, List.getElem?_map, List.getElem?_enum, Option.map_map]
  cases items[i]? <;> rfl

/-- The title and the link both occur inside the tagged section built for
them. -/
theorem mkPostSection_carries (idx1 : Nat) (title link analysis : JStr) :
    title <:+: mkPostSection idx1 title link analysis ∧
    link <:+: mkPostSection idx1 title link analysis := by
  constructor
  · refine ⟨str "--- POST " ++ natStr idx1 ++ str ": ",
      str " ---" ++ (str "\nPost URL: " ++ link ++ str "\n" ++ analysis ++ str "\n"), ?_⟩
    simp [mkPostSection, List.append_assoc]
  · refine ⟨str "--- POST " ++ natStr idx1 ++ str ": " ++ title ++ str " ---" ++ str "\nPost URL: ",
      str "\n" ++ analysis ++ str "\n", ?_⟩
    simp [mkPostSection, List.append_assoc]

/-- With a config supplied and at least one collected analysis, the
Aggregator sends exactly one model call, whose prompt is `saPrompt`. -/
theorem genSA_prompt_of_items (subreddit runDir : JStr) (fs : FS)
    (cfg : ReportConfig) (llm : JStr → Except JStr JStr) (g : GroupDir)
    (hg : lookupGroup fs subreddit = some g) (hpd : postDirsOf g ≠ [])
    (hit : saCollect (postDirsOf g) ≠ []) :
    (generateSubredditAnalysis subreddit runDir fs (some cfg) llm).prompts =
      [saPrompt cfg subreddit (saCollect (postDirsOf g))] := by
  simp only [generateSubredditAnalysis, hg]
  rw [if_neg hpd, if_neg hit]
  cases hllm : llm (saPrompt cfg subreddit (saCollect (postDirsOf g))) with
  | error e => simp [hllm]
  | ok analysis => simp [hllm]

/-- C5 (functional_correctness), amended: for a Group whose `N ≥ 1` post
directories all have a metadata file and a persisted analysis, the synthesis
prompt material contains exactly `N` tagged sections; section `i` is
`--- POST i+1: title ---` followed by the post URL and analysis of the
`i`-th post directory in directory-listing order, and carries the title
and link of that post; whenever the `{postAnalyses}` placeholder survives
the two preceding substitutions (the witness discharges this antecedent for
the shipped newsletter template) *and* the joined block holds no dollar
character, the block is embedded verbatim in the synthesis prompt; and that
prompt is exactly the one model call `generateSubredditAnalysis` makes.  As
stated the claim is false: `String.replace` applies GetSubstitution to the
replacement, so a title or analysis holding an active dollar sequence such
as `$&` is not carried verbatim into the prompt
(`spec_C5_counterexample`). -/
theorem spec_C5 (subreddit runDir : JStr) (fs : FS) (cfg : ReportConfig)
    (llm : JStr → Except JStr JStr) (g : GroupDir)
    (hg : lookupGroup fs subreddit = some g)
    (hne : postDirsOf g ≠ [])
    (hall : ∀ p ∈ postDirsOf g,
      p.metadata.isSome ∧ (p.analysisMd.isSome ∨ p.analysisTxt.isSome)) :
    (saSections (saCollect (postDirsOf g))).length = (postDirsOf g).length ∧
    (∀ i, i < (postDirsOf g).length →
      ∃ p md t, (postDirsOf g)[i]? = some p ∧ p.metadata = some md ∧
        (saSections (saCollect (postDirsOf g)))[i]? =
          some (mkPostSection (i + 1) md.title md.link t) ∧
        md.title <:+: mkPostSection (i + 1) md.title md.link t ∧
        md.link <:+: mkPostSection (i + 1) md.title md.link t) ∧
    ((str "{postAnalyses}") <:+:
        jsReplaceAll
          (jsReplaceAll cfg.subredditAnalysisPrompt (str "{subreddit}") subreddit)
          (str "{postCount}") (natStr (saCollect (postDirsOf g)).length) →
      '$' ∉ saBlock (saCollect (postDirsOf g)) →
      saBlock (saCollect (postDirsOf g)) <:+:
        saPrompt cfg subreddit (saCollect (postDirsOf g))) ∧
    (generateSubredditAnalysis subreddit runDir fs (some cfg) llm).prompts =
      [saPrompt cfg subreddit (saCollect (postDirsOf g))] := by
  obtain ⟨hlen, hget⟩ := saCollect_of_complete (postDirsOf g) hall
  have hit : saCollect (postDirsOf g) ≠ [] := by
    intro hnil
    rw [hnil] at hlen
    exact hne (List.eq_nil_of_length_eq_zero hlen.symm)
  refine ⟨?_, ?_, ?_, genSA_prompt_of_items subreddit runDir fs cfg llm g hg hne hit⟩
  · simp [saSections, hlen]
  · intro i hi
    obtain ⟨p, md, t, h1, h2, h3⟩ := hget i hi
    refine ⟨p, md, t, h1, h2, ?_, (mkPostSection_carries (i + 1) md.title md.link t).1,
      (mkPostSection_carries (i + 1) md.title md.link t).2⟩
    rw [saSections_getElem, h3]
    rfl
  · intro hocc hdollar
    exact jsReplaceAll_infix _ (by decide) hocc hdollar

/-- C8 (functional_correctness): the Item Analyzer makes exactly one model
call per item; its result depends only on the first 10 comments (everything
beyond the first 10 is silently dropped); and the formatted comment entries
are the first `min N 10` comments in the given order, without re-sorting. -/
theorem spec_C8 (articleText : JStr) (comments : List RedditComment)
    (postTitle postLink externalLink : JStr) (shot : Option (Except JStr JStr))
    (llm : List ContentPart → Except JStr JStr) :
    (analyzeArticleAndComments articleText comments postTitle postLink
      externalLink shot llm).calls.length = 1 ∧
    analyzeArticleAndComments articleText comments postTitle postLink
        externalLink shot llm =
      analyzeArticleAndComments articleText (comments.take 10) postTitle postLink
        externalLink shot llm ∧
    ((comments.take 10).map fmtComment).length = min comments.length 10 ∧
    (∀ i, i < 10 →
      ((comments.take 10).map fmtComment)[i]? = (comments[i]?).map fmtComment) := by
  have hfc : formattedComments (comments.take 10) = formattedComments comments := by
    unfold formattedComments
    by_cases hc : comments = []
    · subst hc
      rfl
    · have h1 : comments.isEmpty = false := List.isEmpty_eq_false.mpr hc
      have h2 : (comments.take 10).isEmpty = false := by
        rw [List.isEmpty_eq_false]
        intro hnil
        rcases List.take_eq_nil_iff.mp hnil with h10 | hl
        · exact absurd h10 (by decide)
        · exact hc hl
      simp [h1, h2, List.take_take]
  refine ⟨?_, ?_, ?_, ?_⟩
  · simp only [analyzeArticleAndComments]
    split <;> rfl
  · have hp : aacPrompt articleText (comments.take 10) postTitle postLink externalLink =
        aacPrompt articleText comments postTitle postLink externalLink := by
      unfold aacPrompt
      rw [hfc]
    unfold analyzeArticleAndComments
    rw [← hp]
  · simp [Nat.min_comm]
  · intro i hi
    rw [List.getElem?_map, List.getElem?_take_of_lt hi]

/-- C1 (functional_correctness): the claim fails on the code.  The lookup
`reportConfigs[type] || reportConfigs[DEFAULT_REPORT_TYPE]` inherits the
truthy `Object.prototype` members through the prototype chain, so at the
failing input `toString` it returns the inherited method rather than the
newsletter default config.  For every name that is neither registered nor an
`Object.prototype` member the claimed fallback does hold, and each
registered name returns its own config. -/
theorem spec_C1 (t : JStr) :
    (getReportConfig (str "toString") = JsLookupResult.inherited (str "toString") ∧
      getReportConfig (str "toString") ≠ getReportConfig DEFAULT_REPORT_TYPE ∧
      str "toString" ∉ getAvailableReportTypes) ∧
    (t ∉ getAvailableReportTypes → t ∉ objectPrototypeKeys →
      getReportConfig t = getReportConfig DEFAULT_REPORT_TYPE) ∧
    getReportConfig (str "newsletter") = JsLookupResult.config newsletterConfig ∧
    getReportConfig (str "academic") = JsLookupResult.config academicConfig := by
  refine ⟨⟨rfl, by decide, by decide⟩, ?_, rfl, rfl⟩
  intro hmem hproto
  have ht1 : ¬ str "newsletter" = t := by
    intro h
    exact hmem (h ▸ (by decide : str "newsletter" ∈ getAvailableReportTypes))
  have ht2 : ¬ str "academic" = t := by
    intro h
    exact hmem (h ▸ (by decide : str "academic" ∈ getAvailableReportTypes))
  simp only [getReportConfig, jsIndex, DEFAULT_REPORT_TYPE, reportConfigs, lookupConfig]
  rw [if_neg ht1, if_neg ht2, if_neg hproto]
  rfl

/-- C1 witness: the name `market` is neither registered nor an
`Object.prototype` member, and it does fall back to the default. -/
theorem spec_C1_witness :
    str "market" ∉ getAvailableReportTypes ∧
    str "market" ∉ objectPrototypeKeys ∧
    getReportConfig (str "market") = getReportConfig DEFAULT_REPORT_TYPE :=
  ⟨by decide, by decide, (spec_C1 (str "market")).2.1 (by decide) (by decide)⟩

/-- C6 (error_handling): when no analysis file is found for any post
directory of a Group, the Aggregator returns an in-band error string,
performs no file write at all (in particular it does not write a
`subreddit_analysis.md`), makes no model call, and leaves the
analysis lookup of every group unchanged. -/
theorem spec_C6 (subreddit runDir : JStr) (fs : FS) (cfg? : Option ReportConfig)
    (llm : JStr → Except JStr JStr)
    (h : groupHasNoAnalyses fs subreddit = true) :
    (str "Error") <+: (generateSubredditAnalysis subreddit runDir fs cfg? llm).result ∧
    (generateSubredditAnalysis subreddit runDir fs cfg? llm).writes = [] ∧
    (generateSubredditAnalysis subreddit runDir fs cfg? llm).prompts = [] ∧
    (∀ t, lookupAnalysis (generateSubredditAnalysis subreddit runDir fs cfg? llm).fs t =
      lookupAnalysis fs t) := by
  apply genSA_no_analyses
  intro g hg p hp
  unfold groupHasNoAnalyses at h
  rw [hg] at h
  rw [List.all_eq_true] at h
  have := h p hp
  rw [Bool.and_eq_true, Option.isNone_iff_eq_none, Option.isNone_iff_eq_none] at this
  exact this

/-- C2 witness: a concrete all-excluded run with the newsletter config. -/
theorem spec_C2_witness :
    jsTrim (str " LOW_VALUE_CONTENT ") = newsletterConfig.exclusionSentinel ∧
    (generateNewsletter none (str "sub") (str "run") cxAcadFS newsletterConfig
        (str "D") cxLowLLM).result =
      gnIntro newsletterConfig none (str "sub") (str "D") ++
        gnFooter newsletterConfig (str "sub") :=
  ⟨by decide,
    spec_C2 none (str "sub") (str "run") cxAcadFS newsletterConfig (str "D") cxLowLLM
      { posts := [cxAcadPost], subredditAnalysis := none } rfl (by decide) rfl
      (fun p hp md t h1 h2 => ⟨str " LOW_VALUE_CONTENT ", rfl, by decide⟩)⟩

/-- C3 witness: a single-group run whose analysis is missing. -/
theorem spec_C3_witness :
    ([str "a"] : List JStr).Nodup ∧
    ((∀ s ∈ [str "a"], lookupAnalysis cxMigFS s = none →
      countOcc s (generateCombinedNewsletter none [str "a"] (str "run") cxMigFS
        newsletterConfig (str "D") cxLLM).attempts = 1) ∧
    (∀ s ∈ [str "a"], lookupAnalysis cxMigFS s = none →
      lookupAnalysis (generateCombinedNewsletter none [str "a"] (str "run") cxMigFS
        newsletterConfig (str "D") cxLLM).fs s = none →
      s ∉ (generateCombinedNewsletter none [str "a"] (str "run") cxMigFS
        newsletterConfig (str "D") cxLLM).included.map Prod.fst) ∧
    (∀ s a, s ∈ [str "a"] → lookupAnalysis cxMigFS s = some a →
      (s, a) ∈ (generateCombinedNewsletter none [str "a"] (str "run") cxMigFS
        newsletterConfig (str "D") cxLLM).included) ∧
    ((generateCombinedNewsletter none [str "a"] (str "run") cxMigFS
        newsletterConfig (str "D") cxLLM).included = [] →
      (str "Error") <+: (generateCombinedNewsletter none [str "a"] (str "run") cxMigFS
        newsletterConfig (str "D") cxLLM).result ∧
      (generateCombinedNewsletter none [str "a"] (str "run") cxMigFS
        newsletterConfig (str "D") cxLLM).digestWrite = none)) :=
  ⟨by decide,
    spec_C3 none [str "a"] (str "run") cxMigFS newsletterConfig (str "D") cxLLM (by decide)⟩

/-- C4 witness: the group with only a legacy analysis is skipped by the
Composer. -/
theorem spec_C4_witness :
    (str "a") ∈ [str "a"] ∧ lookupAnalysis cxMigFS (str "a") = none ∧
    (str "a") ∉ (generateCombinedNewsletter none [str "a"] (str "run") cxMigFS
      newsletterConfig (str "D") cxLLM).included.map Prod.fst :=
  ⟨List.mem_cons_self _ _, rfl,
    spec_C4.2 none [str "a"] (str "run") cxMigFS newsletterConfig (str "D") cxLLM
      (str "a") (List.mem_cons_self _ _) rfl⟩

/-- C5 witness: one group, one complete post, the real newsletter template;
the `{postAnalyses}`-survival antecedent and the dollar-free side condition
are both discharged concretely, so the block really is embedded in the
prompt sent. -/
theorem spec_C5_witness :
    lookupGroup cxAcadFS (str "sub") =
      some { posts := [cxAcadPost], subredditAnalysis := none } ∧
    postDirsOf { posts := [cxAcadPost], subredditAnalysis := none } ≠ [] ∧
    (∀ p ∈ postDirsOf { posts := [cxAcadPost], subredditAnalysis := none },
      p.metadata.isSome ∧ (p.analysisMd.isSome ∨ p.analysisTxt.isSome)) ∧
    ((saSections (saCollect (postDirsOf
        { posts := [cxAcadPost], subredditAnalysis := none }))).length =
      (postDirsOf { posts := [cxAcadPost], subredditAnalysis := none }).length ∧
    (∀ i, i < (postDirsOf { posts := [cxAcadPost], subredditAnalysis := none }).length →
      ∃ p md t,
        (postDirsOf { posts := [cxAcadPost], subredditAnalysis := none })[i]? = some p ∧
        p.metadata = some md ∧
        (saSections (saCollect (postDirsOf
          { posts := [cxAcadPost], subredditAnalysis := none })))[i]? =
          some (mkPostSection (i + 1) md.title md.link t) ∧
        md.title <:+: mkPostSection (i + 1) md.title md.link t ∧
        md.link <:+: mkPostSection (i + 1) md.title md.link t) ∧
    ((str "{postAnalyses}") <:+:
        jsReplaceAll
          (jsReplaceAll newsletterConfig.subredditAnalysisPrompt (str "{subreddit}") (str "sub"))
          (str "{postCount}")
          (natStr (saCollect (postDirsOf
            { posts := [cxAcadPost], subredditAnalysis := none })).length) →
      '$' ∉ saBlock (saCollect (postDirsOf { posts := [cxAcadPost], subredditAnalysis := none })) →
      saBlock (saCollect (postDirsOf { posts := [cxAcadPost], subredditAnalysis := none })) <:+:
        saPrompt newsletterConfig (str "sub")
          (saCollect (postDirsOf { posts := [cxAcadPost], subredditAnalysis := none }))) ∧
    (generateSubredditAnalysis (str "sub") (str "run") cxAcadFS (some newsletterConfig)
        cxLLM).prompts =
      [saPrompt newsletterConfig (str "sub")
        (saCollect (postDirsOf { posts := [cxAcadPost], subredditAnalysis := none }))]) ∧
    ((str "{postAnalyses}") <:+:
      jsReplaceAll
        (jsReplaceAll newsletterConfig.subredditAnalysisPrompt (str "{subreddit}") (str "sub"))
        (str "{postCount}")
        (natStr (saCollect (postDirsOf
          { posts := [cxAcadPost], subredditAnalysis := none })).length)) ∧
    '$' ∉ saBlock (saCollect (postDirsOf { posts := [cxAcadPost], subredditAnalysis := none })) ∧
    saBlock (saCollect (postDirsOf { posts := [cxAcadPost], subredditAnalysis := none })) <:+:
      saPrompt newsletterConfig (str "sub")
        (saCollect (postDirsOf { posts := [cxAcadPost], subredditAnalysis := none })) :=
  have hocc : (str "{postAnalyses}") <:+:
      jsReplaceAll
        (jsReplaceAll newsletterConfig.subredditAnalysisPrompt (str "{subreddit}") (str "sub"))
        (str "{postCount}")
        (natStr (saCollect (postDirsOf
          { posts := [cxAcadPost], subredditAnalysis := none })).length) :=
    nlPostAnalyses_survives
  have hdollar : '$' ∉
      saBlock (saCollect (postDirsOf { posts := [cxAcadPost], subredditAnalysis := none })) := by
    decide
  have hmain := spec_C5 (str "sub") (str "run") cxAcadFS newsletterConfig cxLLM
    { posts := [cxAcadPost], subredditAnalysis := none } rfl (by decide) (by decide)
  ⟨rfl, by decide, by decide, hmain, hocc, hdollar, hmain.2.2.1 hocc hdollar⟩

/-- C5 counterexample: a complete post whose analysis is the active dollar
sequence dollar-ampersand.  The tagged section is built for it as the claim
says, but GetSubstitution rewrites the sequence while the block is pasted
over `{postAnalyses}`, so the section is *not* carried verbatim into the
prompt the one model call receives. -/
theorem spec_C5_counterexample :
    (∀ p ∈ postDirsOf { posts := [cxDollarPost], subredditAnalysis := none },
      p.metadata.isSome ∧ (p.analysisMd.isSome ∨ p.analysisTxt.isSome)) ∧
    saSections (saCollect (postDirsOf
        { posts := [cxDollarPost], subredditAnalysis := none })) =
      [mkPostSection 1 (str "T") (str "L") (str "$&")] ∧
    (generateSubredditAnalysis (str "sub") (str "run") cxDollarFS (some newsletterConfig)
        cxLLM).prompts =
      [saPrompt newsletterConfig (str "sub")
        (saCollect (postDirsOf { posts := [cxDollarPost], subredditAnalysis := none }))] ∧
    ¬ (mkPostSection 1 (str "T") (str "L") (str "$&") <:+:
        saPrompt newsletterConfig (str "sub")
          (saCollect (postDirsOf { posts := [cxDollarPost], subredditAnalysis := none }))) := by
  refine ⟨by decide, by decide,
    genSA_prompt_of_items (str "sub") (str "run") cxDollarFS newsletterConfig cxLLM
      { posts := [cxDollarPost], subredditAnalysis := none } rfl (by decide) (by decide), ?_⟩
  intro h
  exact nlPromptDollar_no_dollar (h.subset (by decide))

/-- C6 witness: the Aggregator on a group with no analyses. -/
theorem spec_C6_witness :
    groupHasNoAnalyses cxNoAnFS (str "a") = true ∧
    ((str "Error") <+: (generateSubredditAnalysis (str "a") (str "run") cxNoAnFS
      (some newsletterConfig) cxLLM).result ∧
    (generateSubredditAnalysis (str "a") (str "run") cxNoAnFS
      (some newsletterConfig) cxLLM).writes = [] ∧
    (generateSubredditAnalysis (str "a") (str "run") cxNoAnFS
      (some newsletterConfig) cxLLM).prompts = [] ∧
    (∀ t, lookupAnalysis (generateSubredditAnalysis (str "a") (str "run") cxNoAnFS
      (some newsletterConfig) cxLLM).fs t = lookupAnalysis cxNoAnFS t)) :=
  ⟨by decide,
    spec_C6 (str "a") (str "run") cxNoAnFS (some newsletterConfig) cxLLM (by decide)⟩

/-- C7 witness: migrating the concrete legacy post. -/
theorem spec_C7_witness :
    cxMigPost.analysisMd = none ∧ cxMigPost.analysisTxt = some (str "legacy") ∧
    ((readAnalysisFiles cxMigPost).found = some (str "legacy") ∧
    (readAnalysisFiles cxMigPost).post.analysisMd = some (str "legacy") ∧
    (readAnalysisFiles cxMigPost).post.analysisTxt = none ∧
    (readAnalysisFiles cxMigPost).wrote = [(str "analysis.md", str "legacy")] ∧
    (readAnalysisFiles cxMigPost).removed = [str "analysis.txt"] ∧
    (readAnalysisFiles (readAnalysisFiles cxMigPost).post).found = some (str "legacy") ∧
    (readAnalysisFiles (readAnalysisFiles cxMigPost).post).post =
      (readAnalysisFiles cxMigPost).post ∧
    (readAnalysisFiles (readAnalysisFiles cxMigPost).post).wrote = [] ∧
    (readAnalysisFiles (readAnalysisFiles cxMigPost).post).removed = []) :=
  ⟨rfl, rfl, spec_C7 cxMigPost (str "legacy") rfl rfl⟩

/-- C8 witness: with 11 identical comments the analysis equals the analysis
of the first 10, and the 4th formatted entry is the 4th comment. -/
theorem spec_C8_witness :
    analyzeArticleAndComments (str "art") (List.replicate 11 cxComment) (str "T")
        (str "L") [] none cxPartLLM =
      analyzeArticleAndComments (str "art") ((List.replicate 11 cxComment).take 10)
        (str "T") (str "L") [] none cxPartLLM ∧
    (((List.replicate 11 cxComment).take 10).map fmtComment)[3]? =
      ((List.replicate 11 cxComment)[3]?).map fmtComment :=
  ⟨(spec_C8 (str "art") (List.replicate 11 cxComment) (str "T") (str "L") []
      none cxPartLLM).2.1,
    (spec_C8 (str "art") (List.replicate 11 cxComment) (str "T") (str "L") []
      none cxPartLLM).2.2.2 3 (by decide)⟩

